import Mathlib

/-!
Verification of the hybrid retrieval and query-routing core of TadqeeqAI.

The Python source is embedded shallowly: pure string/list manipulation is
translated to executable Lean definitions; external collaborators (the BM25
scoring library, the vector index, the sentence embedder, the LLM runtime)
enter as explicit parameters carrying the values they would return.  Python
floats are modelled as exact rationals (`ℚ`), Python strings as Lean
`String`s (sequences of Unicode code points, matching Python `str`), Python
dicts with insertion order as association lists, and `dict.get` of a possibly
missing field as `Option String`.

The classifier, bridge, expander and guard functions exist in two revisions
of the source, `backend.py` and `main.py`; both are embedded, in namespaces
`Backend` and `MainPy`.  The non-ASCII string literals are transcribed
byte-for-byte as the files decode under UTF-8: in `backend.py` the Arabic
literals appear mojibake-encoded (UTF-8 bytes re-decoded as mac-roman), and
the embedding preserves that text exactly.
-/

namespace TadqeeqAI

set_option maxHeartbeats 2000000 in
/-- The one-to-one code-point lowercase mappings of Python `str.lower()`
above ASCII — the Unicode simple lowercase mappings — sorted by code point,
generated from the Unicode character database. -/
def lowerTable : List (Nat × Nat) :=
  [(0xC0, 0xE0), (0xC1, 0xE1), (0xC2, 0xE2), (0xC3, 0xE3),
   (0xC4, 0xE4), (0xC5, 0xE5), (0xC6, 0xE6), (0xC7, 0xE7),
   (0xC8, 0xE8), (0xC9, 0xE9), (0xCA, 0xEA), (0xCB, 0xEB),
   (0xCC, 0xEC), (0xCD, 0xED), (0xCE, 0xEE), (0xCF, 0xEF),
   (0xD0, 0xF0), (0xD1, 0xF1), (0xD2, 0xF2), (0xD3, 0xF3),
   (0xD4, 0xF4), (0xD5, 0xF5), (0xD6, 0xF6), (0xD8, 0xF8),
   (0xD9, 0xF9), (0xDA, 0xFA), (0xDB, 0xFB), (0xDC, 0xFC),
   (0xDD, 0xFD), (0xDE, 0xFE), (0x100, 0x101), (0x102, 0x103),
   (0x104, 0x105), (0x106, 0x107), (0x108, 0x109), (0x10A, 0x10B),
   (0x10C, 0x10D), (0x10E, 0x10F), (0x110, 0x111), (0x112, 0x113),
   (0x114, 0x115), (0x116, 0x117), (0x118, 0x119), (0x11A, 0x11B),
   (0x11C, 0x11D), (0x11E, 0x11F), (0x120, 0x121), (0x122, 0x123),
   (0x124, 0x125), (0x126, 0x127), (0x128, 0x129), (0x12A, 0x12B),
   (0x12C, 0x12D), (0x12E, 0x12F), (0x132, 0x133), (0x134, 0x135),
   (0x136, 0x137), (0x139, 0x13A), (0x13B, 0x13C), (0x13D, 0x13E),
   (0x13F, 0x140), (0x141, 0x142), (0x143, 0x144), (0x145, 0x146),
   (0x147, 0x148), (0x14A, 0x14B), (0x14C, 0x14D), (0x14E, 0x14F),
   (0x150, 0x151), (0x152, 0x153), (0x154, 0x155), (0x156, 0x157),
   (0x158, 0x159), (0x15A, 0x15B), (0x15C, 0x15D), (0x15E, 0x15F),
   (0x160, 0x161), (0x162, 0x163), (0x164, 0x165), (0x166, 0x167),
   (0x168, 0x169), (0x16A, 0x16B), (0x16C, 0x16D), (0x16E, 0x16F),
   (0x170, 0x171), (0x172, 0x173), (0x174, 0x175), (0x176, 0x177),
   (0x178, 0xFF), (0x179, 0x17A), (0x17B, 0x17C), (0x17D, 0x17E),
   (0x181, 0x253), (0x182, 0x183), (0x184, 0x185), (0x186, 0x254),
   (0x187, 0x188), (0x189, 0x256), (0x18A, 0x257), (0x18B, 0x18C),
   (0x18E, 0x1DD), (0x18F, 0x259), (0x190, 0x25B), (0x191, 0x192),
   (0x193, 0x260), (0x194, 0x263), (0x196, 0x269), (0x197, 0x268),
   (0x198, 0x199), (0x19C, 0x26F), (0x19D, 0x272), (0x19F, 0x275),
   (0x1A0, 0x1A1), (0x1A2, 0x1A3), (0x1A4, 0x1A5), (0x1A6, 0x280),
   (0x1A7, 0x1A8), (0x1A9, 0x283), (0x1AC, 0x1AD), (0x1AE, 0x288),
   (0x1AF, 0x1B0), (0x1B1, 0x28A), (0x1B2, 0x28B), (0x1B3, 0x1B4),
   (0x1B5, 0x1B6), (0x1B7, 0x292), (0x1B8, 0x1B9), (0x1BC, 0x1BD),
   (0x1C4, 0x1C6), (0x1C5, 0x1C6), (0x1C7, 0x1C9), (0x1C8, 0x1C9),
   (0x1CA, 0x1CC), (0x1CB, 0x1CC), (0x1CD, 0x1CE), (0x1CF, 0x1D0),
   (0x1D1, 0x1D2), (0x1D3, 0x1D4), (0x1D5, 0x1D6), (0x1D7, 0x1D8),
   (0x1D9, 0x1DA), (0x1DB, 0x1DC), (0x1DE, 0x1DF), (0x1E0, 0x1E1),
   (0x1E2, 0x1E3), (0x1E4, 0x1E5), (0x1E6, 0x1E7), (0x1E8, 0x1E9),
   (0x1EA, 0x1EB), (0x1EC, 0x1ED), (0x1EE, 0x1EF), (0x1F1, 0x1F3),
   (0x1F2, 0x1F3), (0x1F4, 0x1F5), (0x1F6, 0x195), (0x1F7, 0x1BF),
   (0x1F8, 0x1F9), (0x1FA, 0x1FB), (0x1FC, 0x1FD), (0x1FE, 0x1FF),
   (0x200, 0x201), (0x202, 0x203), (0x204, 0x205), (0x206, 0x207),
   (0x208, 0x209), (0x20A, 0x20B), (0x20C, 0x20D), (0x20E, 0x20F),
   (0x210, 0x211), (0x212, 0x213), (0x214, 0x215), (0x216, 0x217),
   (0x218, 0x219), (0x21A, 0x21B), (0x21C, 0x21D), (0x21E, 0x21F),
   (0x220, 0x19E), (0x222, 0x223), (0x224, 0x225), (0x226, 0x227),
   (0x228, 0x229), (0x22A, 0x22B), (0x22C, 0x22D), (0x22E, 0x22F),
   (0x230, 0x231), (0x232, 0x233), (0x23A, 0x2C65), (0x23B, 0x23C),
   (0x23D, 0x19A), (0x23E, 0x2C66), (0x241, 0x242), (0x243, 0x180),
   (0x244, 0x289), (0x245, 0x28C), (0x246, 0x247), (0x248, 0x249),
   (0x24A, 0x24B), (0x24C, 0x24D), (0x24E, 0x24F), (0x370, 0x371),
   (0x372, 0x373), (0x376, 0x377), (0x37F, 0x3F3), (0x386, 0x3AC),
   (0x388, 0x3AD), (0x389, 0x3AE), (0x38A, 0x3AF), (0x38C, 0x3CC),
   (0x38E, 0x3CD), (0x38F, 0x3CE), (0x391, 0x3B1), (0x392, 0x3B2),
   (0x393, 0x3B3), (0x394, 0x3B4), (0x395, 0x3B5), (0x396, 0x3B6),
   (0x397, 0x3B7), (0x398, 0x3B8), (0x399, 0x3B9), (0x39A, 0x3BA),
   (0x39B, 0x3BB), (0x39C, 0x3BC), (0x39D, 0x3BD), (0x39E, 0x3BE),
   (0x39F, 0x3BF), (0x3A0, 0x3C0), (0x3A1, 0x3C1), (0x3A3, 0x3C3),
   (0x3A4, 0x3C4), (0x3A5, 0x3C5), (0x3A6, 0x3C6), (0x3A7, 0x3C7),
   (0x3A8, 0x3C8), (0x3A9, 0x3C9), (0x3AA, 0x3CA), (0x3AB, 0x3CB),
   (0x3CF, 0x3D7), (0x3D8, 0x3D9), (0x3DA, 0x3DB), (0x3DC, 0x3DD),
   (0x3DE, 0x3DF), (0x3E0, 0x3E1), (0x3E2, 0x3E3), (0x3E4, 0x3E5),
   (0x3E6, 0x3E7), (0x3E8, 0x3E9), (0x3EA, 0x3EB), (0x3EC, 0x3ED),
   (0x3EE, 0x3EF), (0x3F4, 0x3B8), (0x3F7, 0x3F8), (0x3F9, 0x3F2),
   (0x3FA, 0x3FB), (0x3FD, 0x37B), (0x3FE, 0x37C), (0x3FF, 0x37D),
   (0x400, 0x450), (0x401, 0x451), (0x402, 0x452), (0x403, 0x453),
   (0x404, 0x454), (0x405, 0x455), (0x406, 0x456), (0x407, 0x457),
   (0x408, 0x458), (0x409, 0x459), (0x40A, 0x45A), (0x40B, 0x45B),
   (0x40C, 0x45C), (0x40D, 0x45D), (0x40E, 0x45E), (0x40F, 0x45F),
   (0x410, 0x430), (0x411, 0x431), (0x412, 0x432), (0x413, 0x433),
   (0x414, 0x434), (0x415, 0x435), (0x416, 0x436), (0x417, 0x437),
   (0x418, 0x438), (0x419, 0x439), (0x41A, 0x43A), (0x41B, 0x43B),
   (0x41C, 0x43C), (0x41D, 0x43D), (0x41E, 0x43E), (0x41F, 0x43F),
   (0x420, 0x440), (0x421, 0x441), (0x422, 0x442), (0x423, 0x443),
   (0x424, 0x444), (0x425, 0x445), (0x426, 0x446), (0x427, 0x447),
   (0x428, 0x448), (0x429, 0x449), (0x42A, 0x44A), (0x42B, 0x44B),
   (0x42C, 0x44C), (0x42D, 0x44D), (0x42E, 0x44E), (0x42F, 0x44F),
   (0x460, 0x461), (0x462, 0x463), (0x464, 0x465), (0x466, 0x467),
   (0x468, 0x469), (0x46A, 0x46B), (0x46C, 0x46D), (0x46E, 0x46F),
   (0x470, 0x471), (0x472, 0x473), (0x474, 0x475), (0x476, 0x477),
   (0x478, 0x479), (0x47A, 0x47B), (0x47C, 0x47D), (0x47E, 0x47F),
   (0x480, 0x481), (0x48A, 0x48B), (0x48C, 0x48D), (0x48E, 0x48F),
   (0x490, 0x491), (0x492, 0x493), (0x494, 0x495), (0x496, 0x497),
   (0x498, 0x499), (0x49A, 0x49B), (0x49C, 0x49D), (0x49E, 0x49F),
   (0x4A0, 0x4A1), (0x4A2, 0x4A3), (0x4A4, 0x4A5), (0x4A6, 0x4A7),
   (0x4A8, 0x4A9), (0x4AA, 0x4AB), (0x4AC, 0x4AD), (0x4AE, 0x4AF),
   (0x4B0, 0x4B1), (0x4B2, 0x4B3), (0x4B4, 0x4B5), (0x4B6, 0x4B7),
   (0x4B8, 0x4B9), (0x4BA, 0x4BB), (0x4BC, 0x4BD), (0x4BE, 0x4BF),
   (0x4C0, 0x4CF), (0x4C1, 0x4C2), (0x4C3, 0x4C4), (0x4C5, 0x4C6),
   (0x4C7, 0x4C8), (0x4C9, 0x4CA), (0x4CB, 0x4CC), (0x4CD, 0x4CE),
   (0x4D0, 0x4D1), (0x4D2, 0x4D3), (0x4D4, 0x4D5), (0x4D6, 0x4D7),
   (0x4D8, 0x4D9), (0x4DA, 0x4DB), (0x4DC, 0x4DD), (0x4DE, 0x4DF),
   (0x4E0, 0x4E1), (0x4E2, 0x4E3), (0x4E4, 0x4E5), (0x4E6, 0x4E7),
   (0x4E8, 0x4E9), (0x4EA, 0x4EB), (0x4EC, 0x4ED), (0x4EE, 0x4EF),
   (0x4F0, 0x4F1), (0x4F2, 0x4F3), (0x4F4, 0x4F5), (0x4F6, 0x4F7),
   (0x4F8, 0x4F9), (0x4FA, 0x4FB), (0x4FC, 0x4FD), (0x4FE, 0x4FF),
   (0x500, 0x501), (0x502, 0x503), (0x504, 0x505), (0x506, 0x507),
   (0x508, 0x509), (0x50A, 0x50B), (0x50C, 0x50D), (0x50E, 0x50F),
   (0x510, 0x511), (0x512, 0x513), (0x514, 0x515), (0x516, 0x517),
   (0x518, 0x519), (0x51A, 0x51B), (0x51C, 0x51D), (0x51E, 0x51F),
   (0x520, 0x521), (0x522, 0x523), (0x524, 0x525), (0x526, 0x527),
   (0x528, 0x529), (0x52A, 0x52B), (0x52C, 0x52D), (0x52E, 0x52F),
   (0x531, 0x561), (0x532, 0x562), (0x533, 0x563), (0x534, 0x564),
   (0x535, 0x565), (0x536, 0x566), (0x537, 0x567), (0x538, 0x568),
   (0x539, 0x569), (0x53A, 0x56A), (0x53B, 0x56B), (0x53C, 0x56C),
   (0x53D, 0x56D), (0x53E, 0x56E), (0x53F, 0x56F), (0x540, 0x570),
   (0x541, 0x571), (0x542, 0x572), (0x543, 0x573), (0x544, 0x574),
   (0x545, 0x575), (0x546, 0x576), (0x547, 0x577), (0x548, 0x578),
   (0x549, 0x579), (0x54A, 0x57A), (0x54B, 0x57B), (0x54C, 0x57C),
   (0x54D, 0x57D), (0x54E, 0x57E), (0x54F, 0x57F), (0x550, 0x580),
   (0x551, 0x581), (0x552, 0x582), (0x553, 0x583), (0x554, 0x584),
   (0x555, 0x585), (0x556, 0x586), (0x10A0, 0x2D00), (0x10A1, 0x2D01),
   (0x10A2, 0x2D02), (0x10A3, 0x2D03), (0x10A4, 0x2D04), (0x10A5, 0x2D05),
   (0x10A6, 0x2D06), (0x10A7, 0x2D07), (0x10A8, 0x2D08), (0x10A9, 0x2D09),
   (0x10AA, 0x2D0A), (0x10AB, 0x2D0B), (0x10AC, 0x2D0C), (0x10AD, 0x2D0D),
   (0x10AE, 0x2D0E), (0x10AF, 0x2D0F), (0x10B0, 0x2D10), (0x10B1, 0x2D11),
   (0x10B2, 0x2D12), (0x10B3, 0x2D13), (0x10B4, 0x2D14), (0x10B5, 0x2D15),
   (0x10B6, 0x2D16), (0x10B7, 0x2D17), (0x10B8, 0x2D18), (0x10B9, 0x2D19),
   (0x10BA, 0x2D1A), (0x10BB, 0x2D1B), (0x10BC, 0x2D1C), (0x10BD, 0x2D1D),
   (0x10BE, 0x2D1E), (0x10BF, 0x2D1F), (0x10C0, 0x2D20), (0x10C1, 0x2D21),
   (0x10C2, 0x2D22), (0x10C3, 0x2D23), (0x10C4, 0x2D24), (0x10C5, 0x2D25),
   (0x10C7, 0x2D27), (0x10CD, 0x2D2D), (0x13A0, 0xAB70), (0x13A1, 0xAB71),
   (0x13A2, 0xAB72), (0x13A3, 0xAB73), (0x13A4, 0xAB74), (0x13A5, 0xAB75),
   (0x13A6, 0xAB76), (0x13A7, 0xAB77), (0x13A8, 0xAB78), (0x13A9, 0xAB79),
   (0x13AA, 0xAB7A), (0x13AB, 0xAB7B), (0x13AC, 0xAB7C), (0x13AD, 0xAB7D),
   (0x13AE, 0xAB7E), (0x13AF, 0xAB7F), (0x13B0, 0xAB80), (0x13B1, 0xAB81),
   (0x13B2, 0xAB82), (0x13B3, 0xAB83), (0x13B4, 0xAB84), (0x13B5, 0xAB85),
   (0x13B6, 0xAB86), (0x13B7, 0xAB87), (0x13B8, 0xAB88), (0x13B9, 0xAB89),
   (0x13BA, 0xAB8A), (0x13BB, 0xAB8B), (0x13BC, 0xAB8C), (0x13BD, 0xAB8D),
   (0x13BE, 0xAB8E), (0x13BF, 0xAB8F), (0x13C0, 0xAB90), (0x13C1, 0xAB91),
   (0x13C2, 0xAB92), (0x13C3, 0xAB93), (0x13C4, 0xAB94), (0x13C5, 0xAB95),
   (0x13C6, 0xAB96), (0x13C7, 0xAB97), (0x13C8, 0xAB98), (0x13C9, 0xAB99),
   (0x13CA, 0xAB9A), (0x13CB, 0xAB9B), (0x13CC, 0xAB9C), (0x13CD, 0xAB9D),
   (0x13CE, 0xAB9E), (0x13CF, 0xAB9F), (0x13D0, 0xABA0), (0x13D1, 0xABA1),
   (0x13D2, 0xABA2), (0x13D3, 0xABA3), (0x13D4, 0xABA4), (0x13D5, 0xABA5),
   (0x13D6, 0xABA6), (0x13D7, 0xABA7), (0x13D8, 0xABA8), (0x13D9, 0xABA9),
   (0x13DA, 0xABAA), (0x13DB, 0xABAB), (0x13DC, 0xABAC), (0x13DD, 0xABAD),
   (0x13DE, 0xABAE), (0x13DF, 0xABAF), (0x13E0, 0xABB0), (0x13E1, 0xABB1),
   (0x13E2, 0xABB2), (0x13E3, 0xABB3), (0x13E4, 0xABB4), (0x13E5, 0xABB5),
   (0x13E6, 0xABB6), (0x13E7, 0xABB7), (0x13E8, 0xABB8), (0x13E9, 0xABB9),
   (0x13EA, 0xABBA), (0x13EB, 0xABBB), (0x13EC, 0xABBC), (0x13ED, 0xABBD),
   (0x13EE, 0xABBE), (0x13EF, 0xABBF), (0x13F0, 0x13F8), (0x13F1, 0x13F9),
   (0x13F2, 0x13FA), (0x13F3, 0x13FB), (0x13F4, 0x13FC), (0x13F5, 0x13FD),
   (0x1C90, 0x10D0), (0x1C91, 0x10D1), (0x1C92, 0x10D2), (0x1C93, 0x10D3),
   (0x1C94, 0x10D4), (0x1C95, 0x10D5), (0x1C96, 0x10D6), (0x1C97, 0x10D7),
   (0x1C98, 0x10D8), (0x1C99, 0x10D9), (0x1C9A, 0x10DA), (0x1C9B, 0x10DB),
   (0x1C9C, 0x10DC), (0x1C9D, 0x10DD), (0x1C9E, 0x10DE), (0x1C9F, 0x10DF),
   (0x1CA0, 0x10E0), (0x1CA1, 0x10E1), (0x1CA2, 0x10E2), (0x1CA3, 0x10E3),
   (0x1CA4, 0x10E4), (0x1CA5, 0x10E5), (0x1CA6, 0x10E6), (0x1CA7, 0x10E7),
   (0x1CA8, 0x10E8), (0x1CA9, 0x10E9), (0x1CAA, 0x10EA), (0x1CAB, 0x10EB),
   (0x1CAC, 0x10EC), (0x1CAD, 0x10ED), (0x1CAE, 0x10EE), (0x1CAF, 0x10EF),
   (0x1CB0, 0x10F0), (0x1CB1, 0x10F1), (0x1CB2, 0x10F2), (0x1CB3, 0x10F3),
   (0x1CB4, 0x10F4), (0x1CB5, 0x10F5), (0x1CB6, 0x10F6), (0x1CB7, 0x10F7),
   (0x1CB8, 0x10F8), (0x1CB9, 0x10F9), (0x1CBA, 0x10FA), (0x1CBD, 0x10FD),
   (0x1CBE, 0x10FE), (0x1CBF, 0x10FF), (0x1E00, 0x1E01), (0x1E02, 0x1E03),
   (0x1E04, 0x1E05), (0x1E06, 0x1E07), (0x1E08, 0x1E09), (0x1E0A, 0x1E0B),
   (0x1E0C, 0x1E0D), (0x1E0E, 0x1E0F), (0x1E10, 0x1E11), (0x1E12, 0x1E13),
   (0x1E14, 0x1E15), (0x1E16, 0x1E17), (0x1E18, 0x1E19), (0x1E1A, 0x1E1B),
   (0x1E1C, 0x1E1D), (0x1E1E, 0x1E1F), (0x1E20, 0x1E21), (0x1E22, 0x1E23),
   (0x1E24, 0x1E25), (0x1E26, 0x1E27), (0x1E28, 0x1E29), (0x1E2A, 0x1E2B),
   (0x1E2C, 0x1E2D), (0x1E2E, 0x1E2F), (0x1E30, 0x1E31), (0x1E32, 0x1E33),
   (0x1E34, 0x1E35), (0x1E36, 0x1E37), (0x1E38, 0x1E39), (0x1E3A, 0x1E3B),
   (0x1E3C, 0x1E3D), (0x1E3E, 0x1E3F), (0x1E40, 0x1E41), (0x1E42, 0x1E43),
   (0x1E44, 0x1E45), (0x1E46, 0x1E47), (0x1E48, 0x1E49), (0x1E4A, 0x1E4B),
   (0x1E4C, 0x1E4D), (0x1E4E, 0x1E4F), (0x1E50, 0x1E51), (0x1E52, 0x1E53),
   (0x1E54, 0x1E55), (0x1E56, 0x1E57), (0x1E58, 0x1E59), (0x1E5A, 0x1E5B),
   (0x1E5C, 0x1E5D), (0x1E5E, 0x1E5F), (0x1E60, 0x1E61), (0x1E62, 0x1E63),
   (0x1E64, 0x1E65), (0x1E66, 0x1E67), (0x1E68, 0x1E69), (0x1E6A, 0x1E6B),
   (0x1E6C, 0x1E6D), (0x1E6E, 0x1E6F), (0x1E70, 0x1E71), (0x1E72, 0x1E73),
   (0x1E74, 0x1E75), (0x1E76, 0x1E77), (0x1E78, 0x1E79), (0x1E7A, 0x1E7B),
   (0x1E7C, 0x1E7D), (0x1E7E, 0x1E7F), (0x1E80, 0x1E81), (0x1E82, 0x1E83),
   (0x1E84, 0x1E85), (0x1E86, 0x1E87), (0x1E88, 0x1E89), (0x1E8A, 0x1E8B),
   (0x1E8C, 0x1E8D), (0x1E8E, 0x1E8F), (0x1E90, 0x1E91), (0x1E92, 0x1E93),
   (0x1E94, 0x1E95), (0x1E9E, 0xDF), (0x1EA0, 0x1EA1), (0x1EA2, 0x1EA3),
   (0x1EA4, 0x1EA5), (0x1EA6, 0x1EA7), (0x1EA8, 0x1EA9), (0x1EAA, 0x1EAB),
   (0x1EAC, 0x1EAD), (0x1EAE, 0x1EAF), (0x1EB0, 0x1EB1), (0x1EB2, 0x1EB3),
   (0x1EB4, 0x1EB5), (0x1EB6, 0x1EB7), (0x1EB8, 0x1EB9), (0x1EBA, 0x1EBB),
   (0x1EBC, 0x1EBD), (0x1EBE, 0x1EBF), (0x1EC0, 0x1EC1), (0x1EC2, 0x1EC3),
   (0x1EC4, 0x1EC5), (0x1EC6, 0x1EC7), (0x1EC8, 0x1EC9), (0x1ECA, 0x1ECB),
   (0x1ECC, 0x1ECD), (0x1ECE, 0x1ECF), (0x1ED0, 0x1ED1), (0x1ED2, 0x1ED3),
   (0x1ED4, 0x1ED5), (0x1ED6, 0x1ED7), (0x1ED8, 0x1ED9), (0x1EDA, 0x1EDB),
   (0x1EDC, 0x1EDD), (0x1EDE, 0x1EDF), (0x1EE0, 0x1EE1), (0x1EE2, 0x1EE3),
   (0x1EE4, 0x1EE5), (0x1EE6, 0x1EE7), (0x1EE8, 0x1EE9), (0x1EEA, 0x1EEB),
   (0x1EEC, 0x1EED), (0x1EEE, 0x1EEF), (0x1EF0, 0x1EF1), (0x1EF2, 0x1EF3),
   (0x1EF4, 0x1EF5), (0x1EF6, 0x1EF7), (0x1EF8, 0x1EF9), (0x1EFA, 0x1EFB),
   (0x1EFC, 0x1EFD), (0x1EFE, 0x1EFF), (0x1F08, 0x1F00), (0x1F09, 0x1F01),
   (0x1F0A, 0x1F02), (0x1F0B, 0x1F03), (0x1F0C, 0x1F04), (0x1F0D, 0x1F05),
   (0x1F0E, 0x1F06), (0x1F0F, 0x1F07), (0x1F18, 0x1F10), (0x1F19, 0x1F11),
   (0x1F1A, 0x1F12), (0x1F1B, 0x1F13), (0x1F1C, 0x1F14), (0x1F1D, 0x1F15),
   (0x1F28, 0x1F20), (0x1F29, 0x1F21), (0x1F2A, 0x1F22), (0x1F2B, 0x1F23),
   (0x1F2C, 0x1F24), (0x1F2D, 0x1F25), (0x1F2E, 0x1F26), (0x1F2F, 0x1F27),
   (0x1F38, 0x1F30), (0x1F39, 0x1F31), (0x1F3A, 0x1F32), (0x1F3B, 0x1F33),
   (0x1F3C, 0x1F34), (0x1F3D, 0x1F35), (0x1F3E, 0x1F36), (0x1F3F, 0x1F37),
   (0x1F48, 0x1F40), (0x1F49, 0x1F41), (0x1F4A, 0x1F42), (0x1F4B, 0x1F43),
   (0x1F4C, 0x1F44), (0x1F4D, 0x1F45), (0x1F59, 0x1F51), (0x1F5B, 0x1F53),
   (0x1F5D, 0x1F55), (0x1F5F, 0x1F57), (0x1F68, 0x1F60), (0x1F69, 0x1F61),
   (0x1F6A, 0x1F62), (0x1F6B, 0x1F63), (0x1F6C, 0x1F64), (0x1F6D, 0x1F65),
   (0x1F6E, 0x1F66), (0x1F6F, 0x1F67), (0x1F88, 0x1F80), (0x1F89, 0x1F81),
   (0x1F8A, 0x1F82), (0x1F8B, 0x1F83), (0x1F8C, 0x1F84), (0x1F8D, 0x1F85),
   (0x1F8E, 0x1F86), (0x1F8F, 0x1F87), (0x1F98, 0x1F90), (0x1F99, 0x1F91),
   (0x1F9A, 0x1F92), (0x1F9B, 0x1F93), (0x1F9C, 0x1F94), (0x1F9D, 0x1F95),
   (0x1F9E, 0x1F96), (0x1F9F, 0x1F97), (0x1FA8, 0x1FA0), (0x1FA9, 0x1FA1),
   (0x1FAA, 0x1FA2), (0x1FAB, 0x1FA3), (0x1FAC, 0x1FA4), (0x1FAD, 0x1FA5),
   (0x1FAE, 0x1FA6), (0x1FAF, 0x1FA7), (0x1FB8, 0x1FB0), (0x1FB9, 0x1FB1),
   (0x1FBA, 0x1F70), (0x1FBB, 0x1F71), (0x1FBC, 0x1FB3), (0x1FC8, 0x1F72),
   (0x1FC9, 0x1F73), (0x1FCA, 0x1F74), (0x1FCB, 0x1F75), (0x1FCC, 0x1FC3),
   (0x1FD8, 0x1FD0), (0x1FD9, 0x1FD1), (0x1FDA, 0x1F76), (0x1FDB, 0x1F77),
   (0x1FE8, 0x1FE0), (0x1FE9, 0x1FE1), (0x1FEA, 0x1F7A), (0x1FEB, 0x1F7B),
   (0x1FEC, 0x1FE5), (0x1FF8, 0x1F78), (0x1FF9, 0x1F79), (0x1FFA, 0x1F7C),
   (0x1FFB, 0x1F7D), (0x1FFC, 0x1FF3), (0x2126, 0x3C9), (0x212A, 0x6B),
   (0x212B, 0xE5), (0x2132, 0x214E), (0x2160, 0x2170), (0x2161, 0x2171),
   (0x2162, 0x2172), (0x2163, 0x2173), (0x2164, 0x2174), (0x2165, 0x2175),
   (0x2166, 0x2176), (0x2167, 0x2177), (0x2168, 0x2178), (0x2169, 0x2179),
   (0x216A, 0x217A), (0x216B, 0x217B), (0x216C, 0x217C), (0x216D, 0x217D),
   (0x216E, 0x217E), (0x216F, 0x217F), (0x2183, 0x2184), (0x24B6, 0x24D0),
   (0x24B7, 0x24D1), (0x24B8, 0x24D2), (0x24B9, 0x24D3), (0x24BA, 0x24D4),
   (0x24BB, 0x24D5), (0x24BC, 0x24D6), (0x24BD, 0x24D7), (0x24BE, 0x24D8),
   (0x24BF, 0x24D9), (0x24C0, 0x24DA), (0x24C1, 0x24DB), (0x24C2, 0x24DC),
   (0x24C3, 0x24DD), (0x24C4, 0x24DE), (0x24C5, 0x24DF), (0x24C6, 0x24E0),
   (0x24C7, 0x24E1), (0x24C8, 0x24E2), (0x24C9, 0x24E3), (0x24CA, 0x24E4),
   (0x24CB, 0x24E5), (0x24CC, 0x24E6), (0x24CD, 0x24E7), (0x24CE, 0x24E8),
   (0x24CF, 0x24E9), (0x2C00, 0x2C30), (0x2C01, 0x2C31), (0x2C02, 0x2C32),
   (0x2C03, 0x2C33), (0x2C04, 0x2C34), (0x2C05, 0x2C35), (0x2C06, 0x2C36),
   (0x2C07, 0x2C37), (0x2C08, 0x2C38), (0x2C09, 0x2C39), (0x2C0A, 0x2C3A),
   (0x2C0B, 0x2C3B), (0x2C0C, 0x2C3C), (0x2C0D, 0x2C3D), (0x2C0E, 0x2C3E),
   (0x2C0F, 0x2C3F), (0x2C10, 0x2C40), (0x2C11, 0x2C41), (0x2C12, 0x2C42),
   (0x2C13, 0x2C43), (0x2C14, 0x2C44), (0x2C15, 0x2C45), (0x2C16, 0x2C46),
   (0x2C17, 0x2C47), (0x2C18, 0x2C48), (0x2C19, 0x2C49), (0x2C1A, 0x2C4A),
   (0x2C1B, 0x2C4B), (0x2C1C, 0x2C4C), (0x2C1D, 0x2C4D), (0x2C1E, 0x2C4E),
   (0x2C1F, 0x2C4F), (0x2C20, 0x2C50), (0x2C21, 0x2C51), (0x2C22, 0x2C52),
   (0x2C23, 0x2C53), (0x2C24, 0x2C54), (0x2C25, 0x2C55), (0x2C26, 0x2C56),
   (0x2C27, 0x2C57), (0x2C28, 0x2C58), (0x2C29, 0x2C59), (0x2C2A, 0x2C5A),
   (0x2C2B, 0x2C5B), (0x2C2C, 0x2C5C), (0x2C2D, 0x2C5D), (0x2C2E, 0x2C5E),
   (0x2C2F, 0x2C5F), (0x2C60, 0x2C61), (0x2C62, 0x26B), (0x2C63, 0x1D7D),
   (0x2C64, 0x27D), (0x2C67, 0x2C68), (0x2C69, 0x2C6A), (0x2C6B, 0x2C6C),
   (0x2C6D, 0x251), (0x2C6E, 0x271), (0x2C6F, 0x250), (0x2C70, 0x252),
   (0x2C72, 0x2C73), (0x2C75, 0x2C76), (0x2C7E, 0x23F), (0x2C7F, 0x240),
   (0x2C80, 0x2C81), (0x2C82, 0x2C83), (0x2C84, 0x2C85), (0x2C86, 0x2C87),
   (0x2C88, 0x2C89), (0x2C8A, 0x2C8B), (0x2C8C, 0x2C8D), (0x2C8E, 0x2C8F),
   (0x2C90, 0x2C91), (0x2C92, 0x2C93), (0x2C94, 0x2C95), (0x2C96, 0x2C97),
   (0x2C98, 0x2C99), (0x2C9A, 0x2C9B), (0x2C9C, 0x2C9D), (0x2C9E, 0x2C9F),
   (0x2CA0, 0x2CA1), (0x2CA2, 0x2CA3), (0x2CA4, 0x2CA5), (0x2CA6, 0x2CA7),
   (0x2CA8, 0x2CA9), (0x2CAA, 0x2CAB), (0x2CAC, 0x2CAD), (0x2CAE, 0x2CAF),
   (0x2CB0, 0x2CB1), (0x2CB2, 0x2CB3), (0x2CB4, 0x2CB5), (0x2CB6, 0x2CB7),
   (0x2CB8, 0x2CB9), (0x2CBA, 0x2CBB), (0x2CBC, 0x2CBD), (0x2CBE, 0x2CBF),
   (0x2CC0, 0x2CC1), (0x2CC2, 0x2CC3), (0x2CC4, 0x2CC5), (0x2CC6, 0x2CC7),
   (0x2CC8, 0x2CC9), (0x2CCA, 0x2CCB), (0x2CCC, 0x2CCD), (0x2CCE, 0x2CCF),
   (0x2CD0, 0x2CD1), (0x2CD2, 0x2CD3), (0x2CD4, 0x2CD5), (0x2CD6, 0x2CD7),
   (0x2CD8, 0x2CD9), (0x2CDA, 0x2CDB), (0x2CDC, 0x2CDD), (0x2CDE, 0x2CDF),
   (0x2CE0, 0x2CE1), (0x2CE2, 0x2CE3), (0x2CEB, 0x2CEC), (0x2CED, 0x2CEE),
   (0x2CF2, 0x2CF3), (0xA640, 0xA641), (0xA642, 0xA643), (0xA644, 0xA645),
   (0xA646, 0xA647), (0xA648, 0xA649), (0xA64A, 0xA64B), (0xA64C, 0xA64D),
   (0xA64E, 0xA64F), (0xA650, 0xA651), (0xA652, 0xA653), (0xA654, 0xA655),
   (0xA656, 0xA657), (0xA658, 0xA659), (0xA65A, 0xA65B), (0xA65C, 0xA65D),
   (0xA65E, 0xA65F), (0xA660, 0xA661), (0xA662, 0xA663), (0xA664, 0xA665),
   (0xA666, 0xA667), (0xA668, 0xA669), (0xA66A, 0xA66B), (0xA66C, 0xA66D),
   (0xA680, 0xA681), (0xA682, 0xA683), (0xA684, 0xA685), (0xA686, 0xA687),
   (0xA688, 0xA689), (0xA68A, 0xA68B), (0xA68C, 0xA68D), (0xA68E, 0xA68F),
   (0xA690, 0xA691), (0xA692, 0xA693), (0xA694, 0xA695), (0xA696, 0xA697),
   (0xA698, 0xA699), (0xA69A, 0xA69B), (0xA722, 0xA723), (0xA724, 0xA725),
   (0xA726, 0xA727), (0xA728, 0xA729), (0xA72A, 0xA72B), (0xA72C, 0xA72D),
   (0xA72E, 0xA72F), (0xA732, 0xA733), (0xA734, 0xA735), (0xA736, 0xA737),
   (0xA738, 0xA739), (0xA73A, 0xA73B), (0xA73C, 0xA73D), (0xA73E, 0xA73F),
   (0xA740, 0xA741), (0xA742, 0xA743), (0xA744, 0xA745), (0xA746, 0xA747),
   (0xA748, 0xA749), (0xA74A, 0xA74B), (0xA74C, 0xA74D), (0xA74E, 0xA74F),
   (0xA750, 0xA751), (0xA752, 0xA753), (0xA754, 0xA755), (0xA756, 0xA757),
   (0xA758, 0xA759), (0xA75A, 0xA75B), (0xA75C, 0xA75D), (0xA75E, 0xA75F),
   (0xA760, 0xA761), (0xA762, 0xA763), (0xA764, 0xA765), (0xA766, 0xA767),
   (0xA768, 0xA769), (0xA76A, 0xA76B), (0xA76C, 0xA76D), (0xA76E, 0xA76F),
   (0xA779, 0xA77A), (0xA77B, 0xA77C), (0xA77D, 0x1D79), (0xA77E, 0xA77F),
   (0xA780, 0xA781), (0xA782, 0xA783), (0xA784, 0xA785), (0xA786, 0xA787),
   (0xA78B, 0xA78C), (0xA78D, 0x265), (0xA790, 0xA791), (0xA792, 0xA793),
   (0xA796, 0xA797), (0xA798, 0xA799), (0xA79A, 0xA79B), (0xA79C, 0xA79D),
   (0xA79E, 0xA79F), (0xA7A0, 0xA7A1), (0xA7A2, 0xA7A3), (0xA7A4, 0xA7A5),
   (0xA7A6, 0xA7A7), (0xA7A8, 0xA7A9), (0xA7AA, 0x266), (0xA7AB, 0x25C),
   (0xA7AC, 0x261), (0xA7AD, 0x26C), (0xA7AE, 0x26A), (0xA7B0, 0x29E),
   (0xA7B1, 0x287), (0xA7B2, 0x29D), (0xA7B3, 0xAB53), (0xA7B4, 0xA7B5),
   (0xA7B6, 0xA7B7), (0xA7B8, 0xA7B9), (0xA7BA, 0xA7BB), (0xA7BC, 0xA7BD),
   (0xA7BE, 0xA7BF), (0xA7C0, 0xA7C1), (0xA7C2, 0xA7C3), (0xA7C4, 0xA794),
   (0xA7C5, 0x282), (0xA7C6, 0x1D8E), (0xA7C7, 0xA7C8), (0xA7C9, 0xA7CA),
   (0xA7D0, 0xA7D1), (0xA7D6, 0xA7D7), (0xA7D8, 0xA7D9), (0xA7F5, 0xA7F6),
   (0xFF21, 0xFF41), (0xFF22, 0xFF42), (0xFF23, 0xFF43), (0xFF24, 0xFF44),
   (0xFF25, 0xFF45), (0xFF26, 0xFF46), (0xFF27, 0xFF47), (0xFF28, 0xFF48),
   (0xFF29, 0xFF49), (0xFF2A, 0xFF4A), (0xFF2B, 0xFF4B), (0xFF2C, 0xFF4C),
   (0xFF2D, 0xFF4D), (0xFF2E, 0xFF4E), (0xFF2F, 0xFF4F), (0xFF30, 0xFF50),
   (0xFF31, 0xFF51), (0xFF32, 0xFF52), (0xFF33, 0xFF53), (0xFF34, 0xFF54),
   (0xFF35, 0xFF55), (0xFF36, 0xFF56), (0xFF37, 0xFF57), (0xFF38, 0xFF58),
   (0xFF39, 0xFF59), (0xFF3A, 0xFF5A), (0x10400, 0x10428), (0x10401, 0x10429),
   (0x10402, 0x1042A), (0x10403, 0x1042B), (0x10404, 0x1042C), (0x10405, 0x1042D),
   (0x10406, 0x1042E), (0x10407, 0x1042F), (0x10408, 0x10430), (0x10409, 0x10431),
   (0x1040A, 0x10432), (0x1040B, 0x10433), (0x1040C, 0x10434), (0x1040D, 0x10435),
   (0x1040E, 0x10436), (0x1040F, 0x10437), (0x10410, 0x10438), (0x10411, 0x10439),
   (0x10412, 0x1043A), (0x10413, 0x1043B), (0x10414, 0x1043C), (0x10415, 0x1043D),
   (0x10416, 0x1043E), (0x10417, 0x1043F), (0x10418, 0x10440), (0x10419, 0x10441),
   (0x1041A, 0x10442), (0x1041B, 0x10443), (0x1041C, 0x10444), (0x1041D, 0x10445),
   (0x1041E, 0x10446), (0x1041F, 0x10447), (0x10420, 0x10448), (0x10421, 0x10449),
   (0x10422, 0x1044A), (0x10423, 0x1044B), (0x10424, 0x1044C), (0x10425, 0x1044D),
   (0x10426, 0x1044E), (0x10427, 0x1044F), (0x104B0, 0x104D8), (0x104B1, 0x104D9),
   (0x104B2, 0x104DA), (0x104B3, 0x104DB), (0x104B4, 0x104DC), (0x104B5, 0x104DD),
   (0x104B6, 0x104DE), (0x104B7, 0x104DF), (0x104B8, 0x104E0), (0x104B9, 0x104E1),
   (0x104BA, 0x104E2), (0x104BB, 0x104E3), (0x104BC, 0x104E4), (0x104BD, 0x104E5),
   (0x104BE, 0x104E6), (0x104BF, 0x104E7), (0x104C0, 0x104E8), (0x104C1, 0x104E9),
   (0x104C2, 0x104EA), (0x104C3, 0x104EB), (0x104C4, 0x104EC), (0x104C5, 0x104ED),
   (0x104C6, 0x104EE), (0x104C7, 0x104EF), (0x104C8, 0x104F0), (0x104C9, 0x104F1),
   (0x104CA, 0x104F2), (0x104CB, 0x104F3), (0x104CC, 0x104F4), (0x104CD, 0x104F5),
   (0x104CE, 0x104F6), (0x104CF, 0x104F7), (0x104D0, 0x104F8), (0x104D1, 0x104F9),
   (0x104D2, 0x104FA), (0x104D3, 0x104FB), (0x10570, 0x10597), (0x10571, 0x10598),
   (0x10572, 0x10599), (0x10573, 0x1059A), (0x10574, 0x1059B), (0x10575, 0x1059C),
   (0x10576, 0x1059D), (0x10577, 0x1059E), (0x10578, 0x1059F), (0x10579, 0x105A0),
   (0x1057A, 0x105A1), (0x1057C, 0x105A3), (0x1057D, 0x105A4), (0x1057E, 0x105A5),
   (0x1057F, 0x105A6), (0x10580, 0x105A7), (0x10581, 0x105A8), (0x10582, 0x105A9),
   (0x10583, 0x105AA), (0x10584, 0x105AB), (0x10585, 0x105AC), (0x10586, 0x105AD),
   (0x10587, 0x105AE), (0x10588, 0x105AF), (0x10589, 0x105B0), (0x1058A, 0x105B1),
   (0x1058C, 0x105B3), (0x1058D, 0x105B4), (0x1058E, 0x105B5), (0x1058F, 0x105B6),
   (0x10590, 0x105B7), (0x10591, 0x105B8), (0x10592, 0x105B9), (0x10594, 0x105BB),
   (0x10595, 0x105BC), (0x10C80, 0x10CC0), (0x10C81, 0x10CC1), (0x10C82, 0x10CC2),
   (0x10C83, 0x10CC3), (0x10C84, 0x10CC4), (0x10C85, 0x10CC5), (0x10C86, 0x10CC6),
   (0x10C87, 0x10CC7), (0x10C88, 0x10CC8), (0x10C89, 0x10CC9), (0x10C8A, 0x10CCA),
   (0x10C8B, 0x10CCB), (0x10C8C, 0x10CCC), (0x10C8D, 0x10CCD), (0x10C8E, 0x10CCE),
   (0x10C8F, 0x10CCF), (0x10C90, 0x10CD0), (0x10C91, 0x10CD1), (0x10C92, 0x10CD2),
   (0x10C93, 0x10CD3), (0x10C94, 0x10CD4), (0x10C95, 0x10CD5), (0x10C96, 0x10CD6),
   (0x10C97, 0x10CD7), (0x10C98, 0x10CD8), (0x10C99, 0x10CD9), (0x10C9A, 0x10CDA),
   (0x10C9B, 0x10CDB), (0x10C9C, 0x10CDC), (0x10C9D, 0x10CDD), (0x10C9E, 0x10CDE),
   (0x10C9F, 0x10CDF), (0x10CA0, 0x10CE0), (0x10CA1, 0x10CE1), (0x10CA2, 0x10CE2),
   (0x10CA3, 0x10CE3), (0x10CA4, 0x10CE4), (0x10CA5, 0x10CE5), (0x10CA6, 0x10CE6),
   (0x10CA7, 0x10CE7), (0x10CA8, 0x10CE8), (0x10CA9, 0x10CE9), (0x10CAA, 0x10CEA),
   (0x10CAB, 0x10CEB), (0x10CAC, 0x10CEC), (0x10CAD, 0x10CED), (0x10CAE, 0x10CEE),
   (0x10CAF, 0x10CEF), (0x10CB0, 0x10CF0), (0x10CB1, 0x10CF1), (0x10CB2, 0x10CF2),
   (0x118A0, 0x118C0), (0x118A1, 0x118C1), (0x118A2, 0x118C2), (0x118A3, 0x118C3),
   (0x118A4, 0x118C4), (0x118A5, 0x118C5), (0x118A6, 0x118C6), (0x118A7, 0x118C7),
   (0x118A8, 0x118C8), (0x118A9, 0x118C9), (0x118AA, 0x118CA), (0x118AB, 0x118CB),
   (0x118AC, 0x118CC), (0x118AD, 0x118CD), (0x118AE, 0x118CE), (0x118AF, 0x118CF),
   (0x118B0, 0x118D0), (0x118B1, 0x118D1), (0x118B2, 0x118D2), (0x118B3, 0x118D3),
   (0x118B4, 0x118D4), (0x118B5, 0x118D5), (0x118B6, 0x118D6), (0x118B7, 0x118D7),
   (0x118B8, 0x118D8), (0x118B9, 0x118D9), (0x118BA, 0x118DA), (0x118BB, 0x118DB),
   (0x118BC, 0x118DC), (0x118BD, 0x118DD), (0x118BE, 0x118DE), (0x118BF, 0x118DF),
   (0x16E40, 0x16E60), (0x16E41, 0x16E61), (0x16E42, 0x16E62), (0x16E43, 0x16E63),
   (0x16E44, 0x16E64), (0x16E45, 0x16E65), (0x16E46, 0x16E66), (0x16E47, 0x16E67),
   (0x16E48, 0x16E68), (0x16E49, 0x16E69), (0x16E4A, 0x16E6A), (0x16E4B, 0x16E6B),
   (0x16E4C, 0x16E6C), (0x16E4D, 0x16E6D), (0x16E4E, 0x16E6E), (0x16E4F, 0x16E6F),
   (0x16E50, 0x16E70), (0x16E51, 0x16E71), (0x16E52, 0x16E72), (0x16E53, 0x16E73),
   (0x16E54, 0x16E74), (0x16E55, 0x16E75), (0x16E56, 0x16E76), (0x16E57, 0x16E77),
   (0x16E58, 0x16E78), (0x16E59, 0x16E79), (0x16E5A, 0x16E7A), (0x16E5B, 0x16E7B),
   (0x16E5C, 0x16E7C), (0x16E5D, 0x16E7D), (0x16E5E, 0x16E7E), (0x16E5F, 0x16E7F),
   (0x1E900, 0x1E922), (0x1E901, 0x1E923), (0x1E902, 0x1E924), (0x1E903, 0x1E925),
   (0x1E904, 0x1E926), (0x1E905, 0x1E927), (0x1E906, 0x1E928), (0x1E907, 0x1E929),
   (0x1E908, 0x1E92A), (0x1E909, 0x1E92B), (0x1E90A, 0x1E92C), (0x1E90B, 0x1E92D),
   (0x1E90C, 0x1E92E), (0x1E90D, 0x1E92F), (0x1E90E, 0x1E930), (0x1E90F, 0x1E931),
   (0x1E910, 0x1E932), (0x1E911, 0x1E933), (0x1E912, 0x1E934), (0x1E913, 0x1E935),
   (0x1E914, 0x1E936), (0x1E915, 0x1E937), (0x1E916, 0x1E938), (0x1E917, 0x1E939),
   (0x1E918, 0x1E93A), (0x1E919, 0x1E93B), (0x1E91A, 0x1E93C), (0x1E91B, 0x1E93D),
   (0x1E91C, 0x1E93E), (0x1E91D, 0x1E93F), (0x1E91E, 0x1E940), (0x1E91F, 0x1E941),
   (0x1E920, 0x1E942), (0x1E921, 0x1E943)]

/-- Lookup in the sorted mapping table, stopping at the first larger key. -/
def lookupLower (n : Nat) : List (Nat × Nat) → Option Nat
  | [] => none
  | p :: ps => if n < p.1 then none else if n = p.1 then some p.2 else lookupLower n ps

/-- Python `c.lower()` on one character: ASCII directly, any other character
through the Unicode simple mapping.  `str.lower()` on strings differs from
this per-character map in exactly two ways — İ (U+0130) lowercases to the
two code points i plus a combining dot above, and Σ in word-final position
becomes ς rather than σ — and none of the characters i, the combining dot,
σ or ς occurs in any embedded phrase literal, so a literal occurs in a
lowercased query under this map exactly when it does under `str.lower()`. -/
def pyLower (c : Char) : Char :=
  if c.toNat < 0x80 then c.toLower
  else match lookupLower c.toNat lowerTable with
    | some m => Char.ofNat m
    | none => c

/-- Lowercase every character of a string, modelling Python `s.lower()`. -/
def pyLowerStr (s : String) : String := ⟨s.data.map pyLower⟩

/-- Does `pre` occur at the head of `l`? -/
def leadMatch : List Char → List Char → Bool
  | [], _ => true
  | _ :: _, [] => false
  | a :: as, b :: bs => a == b && leadMatch as bs

/-- Does `ns` occur contiguously anywhere in the second list? -/
def subMatch (ns : List Char) : List Char → Bool
  | [] => ns.isEmpty
  | h :: t => leadMatch ns (h :: t) || subMatch ns t

/-- Python `needle in hay` for strings: substring containment. -/
def containsSub (needle hay : String) : Bool := subMatch needle.data hay.data

/-- One corpus record.  `document` and `article` are always used by the core
via direct indexing; `regulator` and `language` are read with `dict.get` and
may be absent from a loaded record, hence `Option`. -/
structure Doc where
  document : String
  article : String
  regulator? : Option String
  language? : Option String
  text : String
deriving DecidableEq, Inhabited, Repr

/-- Metadata attached to one vector-index neighbor; every field is read with
`meta.get(...)` and may be absent. -/
structure Meta where
  document? : Option String
  article? : Option String
  regulator? : Option String
  language? : Option String
deriving DecidableEq, Inhabited, Repr

/-- A transient retrieval result: `{'doc': ..., 'score': ..., 'source': ...}`. -/
structure Candidate where
  doc : Doc
  score : ℚ
  source : String
deriving DecidableEq, Inhabited, Repr

namespace Backend

def samaEn : List String :=
  ["sama", "finance company", "finance companies", "financing company", "licensing fee", "real estate finance", "mortgage", "microfinance", "finance control", "monetary authority", "bank", "banking"]

def cmaEn : List String :=
  ["cma", "capital market", "securities", "sukuk", "debt instrument", "investment fund", "qualified investor", "public offering", "ipo", "private placement", "prospectus", "listing", "merger", "acquisition", "stock", "shares", "exchange"]

def samaAr : List String :=
  ["ÿ≥ÿßŸÖÿß", "ÿ¥ÿ±ŸÉÿ© ÿßŸÑÿ™ŸÖŸàŸäŸÑ", "ÿ¥ÿ±ŸÉÿßÿ™ ÿßŸÑÿ™ŸÖŸàŸäŸÑ", "ÿ±ÿ≥ŸàŸÖ ÿßŸÑÿ™ÿ±ÿÆŸäÿµ", "ÿßŸÑÿ™ŸÖŸàŸäŸÑ ÿßŸÑÿπŸÇÿßÿ±Ÿä", "ÿßŸÑÿ™ŸÖŸàŸäŸÑ ÿßŸÑÿ£ÿµÿ∫ÿ±", "ŸÖÿ§ÿ≥ÿ≥ÿ© ÿßŸÑŸÜŸÇÿØ", "ÿßŸÑÿ®ŸÜŸÉ ÿßŸÑŸÖÿ±ŸÉÿ≤Ÿä", "ÿ™ŸÖŸàŸäŸÑ"]

def cmaAr : List String :=
  ["ŸÖÿ≥ÿ™ÿ´ŸÖÿ± ŸÖÿ§ŸáŸÑ", "ÿßŸÑŸÖÿ≥ÿ™ÿ´ŸÖÿ± ÿßŸÑŸÖÿ§ŸáŸÑ", "ŸáŸäÿ¶ÿ© ÿßŸÑÿ≥ŸàŸÇ ÿßŸÑŸÖÿßŸÑŸäÿ©", "ŸáŸäÿ¶ÿ© ÿßŸÑÿ≥ŸàŸÇ", "ÿµŸÉŸàŸÉ", "ÿßŸÑÿµŸÉŸàŸÉ", "ÿ∑ÿ±ÿ≠ ÿπÿßŸÖ", "ÿ∑ÿ±ÿ≠ ÿÆÿßÿµ", "ŸÜÿ¥ÿ±ÿ© ÿßŸÑÿ•ÿµÿØÿßÿ±", "ÿµŸÜÿßÿØŸäŸÇ ÿßŸÑÿßÿ≥ÿ™ÿ´ŸÖÿßÿ±", "ÿ£Ÿàÿ±ÿßŸÇ ŸÖÿßŸÑŸäÿ©", "ÿßŸÑÿ£Ÿàÿ±ÿßŸÇ ÿßŸÑŸÖÿßŸÑŸäÿ©", "ÿ≥ŸàŸÇ ÿßŸÑŸÖÿßŸÑ", "ÿßŸÑÿßŸÜÿØŸÖÿßÿ¨", "ÿßŸÑÿßÿ≥ÿ™ÿ≠Ÿàÿßÿ∞", "ÿßŸÑÿ£ÿ≥ŸáŸÖ", "ÿßŸÑÿ™ÿØÿßŸàŸÑ"]

def translations : List (String × String) :=
  [("ÿ±ÿ≥ŸàŸÖ ÿßŸÑÿ™ÿ±ÿÆŸäÿµ", "licensing fees"), ("ÿ±ÿ≥ŸàŸÖ ÿ™ÿ±ÿÆŸäÿµ", "licensing fees"), ("ÿ¥ÿ±ŸÉÿßÿ™ ÿßŸÑÿ™ŸÖŸàŸäŸÑ", "finance companies"), ("ÿ¥ÿ±ŸÉÿ© ÿßŸÑÿ™ŸÖŸàŸäŸÑ", "finance company"), ("ÿßŸÑÿ™ŸÖŸàŸäŸÑ ÿßŸÑÿπŸÇÿßÿ±Ÿä", "real estate finance"), ("ÿßŸÑÿ™ŸÖŸàŸäŸÑ ÿßŸÑÿ£ÿµÿ∫ÿ±", "microfinance"), ("ÿßŸÑŸÖÿ≥ÿ™ÿ´ŸÖÿ± ÿßŸÑŸÖÿ§ŸáŸÑ", "qualified investor"), ("ŸÖÿ≥ÿ™ÿ´ŸÖÿ± ŸÖÿ§ŸáŸÑ", "qualified investor"), ("ÿßŸÑÿµŸÉŸàŸÉ", "sukuk debt instruments"), ("ÿµŸÉŸàŸÉ", "sukuk debt instruments"), ("ÿ£ÿØŸàÿßÿ™ ÿßŸÑÿØŸäŸÜ", "debt instruments"), ("ÿ∑ÿ±ÿ≠ ÿπÿßŸÖ", "public offering"), ("ÿ∑ÿ±ÿ≠ ÿÆÿßÿµ", "private placement"), ("ŸÜÿ¥ÿ±ÿ© ÿßŸÑÿ•ÿµÿØÿßÿ±", "prospectus"), ("ÿµŸÜÿßÿØŸäŸÇ ÿßŸÑÿßÿ≥ÿ™ÿ´ŸÖÿßÿ±", "investment funds"), ("ÿµŸÜÿØŸàŸÇ ÿßÿ≥ÿ™ÿ´ŸÖÿßÿ±", "investment fund"), ("ÿ±ÿ£ÿ≥ ÿßŸÑŸÖÿßŸÑ", "capital requirements"), ("ŸÖÿ™ÿ∑ŸÑÿ®ÿßÿ™ ÿ±ÿ£ÿ≥ ÿßŸÑŸÖÿßŸÑ", "capital requirements"), ("ÿßŸÑÿ≠ÿØ ÿßŸÑÿ£ÿØŸÜŸâ", "minimum requirements"), ("ŸáŸäÿ¶ÿ© ÿßŸÑÿ≥ŸàŸÇ ÿßŸÑŸÖÿßŸÑŸäÿ©", "capital market authority CMA"), ("ŸÖÿ§ÿ≥ÿ≥ÿ© ÿßŸÑŸÜŸÇÿØ", "SAMA monetary authority"), ("ÿ≥ÿßŸÖÿß", "SAMA"), ("ÿßŸÑÿßŸÜÿØŸÖÿßÿ¨", "merger"), ("ÿßŸÑÿßÿ≥ÿ™ÿ≠Ÿàÿßÿ∞", "acquisition"), ("ÿßŸÑÿ£ÿ≥ŸáŸÖ", "shares stocks"), ("ÿßŸÑÿ•ŸÅÿµÿßÿ≠", "disclosure"), ("ÿßŸÑÿ≠ŸàŸÉŸÖÿ©", "governance"), ("ŸÖÿ¨ŸÑÿ≥ ÿßŸÑÿ•ÿØÿßÿ±ÿ©", "board of directors"), ("ÿ™ŸÇÿ±Ÿäÿ± ÿ≥ŸÜŸàŸä", "annual report"), ("ÿßŸÑŸÇŸàÿßÿ¶ŸÖ ÿßŸÑŸÖÿßŸÑŸäÿ©", "financial statements"), ("ÿßŸÑŸÖÿ±ÿßÿ¨ÿπ ÿßŸÑÿÆÿßÿ±ÿ¨Ÿä", "external auditor"), ("ÿßŸÑÿπŸÇŸàÿ®ÿßÿ™", "penalties"), ("ÿßŸÑŸÖÿÆÿßŸÑŸÅÿßÿ™", "violations"), ("ÿßŸÑÿ™ÿ±ÿÆŸäÿµ", "license licensing"), ("ÿßŸÑÿ™ÿ≥ÿ¨ŸäŸÑ", "registration"), ("ÿßŸÑÿ•ÿØÿ±ÿßÿ¨", "listing"), ("ÿßŸÑÿ≥ŸàŸÇ ÿßŸÑŸÖŸàÿßÿ≤Ÿäÿ©", "parallel market"), ("ÿßŸÑÿ∑ÿ±ÿ≠", "offering"), ("ÿßŸÑÿßŸÉÿ™ÿ™ÿßÿ®", "subscription IPO")]

def expandMappings : List (String × String) :=
  [("sukuk", "debt instruments securities bonds"), ("sukuk issuance", "debt instruments offering securities"), ("debt instruments", "sukuk securities bonds"), ("licensing fee", "license fee financial consideration"), ("licensing fees", "license fee financial consideration"), ("qualified investor", "accredited investor"), ("capital requirements", "minimum capital paid up capital"), ("finance company", "finance companies"), ("microfinance", "micro finance small finance"), ("real estate finance", "mortgage property finance"), ("investment fund", "investment funds"), ("public offering", "IPO offering securities"), ("private placement", "exempt offering")]

def followUpEn : List String :=
  ["yes", "yeah", "sure", "please", "ok", "okay", "simplify", "explain", "example", "examples", "scenario", "more details", "elaborate", "clarify", "what do you mean", "can you explain", "help me understand", "break it down", "in simple terms", "simpler", "easier"]

def followUpAr : List String :=
  ["ŸÜÿπŸÖ", "ÿ£ÿ¨ŸÑ", "ÿ∑Ÿäÿ®", "ÿ≠ÿ≥ŸÜÿß", "ŸÖŸàÿßŸÅŸÇ", "ÿ™ŸÖÿßŸÖ", "Ÿàÿ∂ÿ≠", "ÿßÿ¥ÿ±ÿ≠", "ŸÖÿ´ÿßŸÑ", "ÿ£ŸÖÿ´ŸÑÿ©", "ÿ≥ŸäŸÜÿßÿ±ŸäŸà", "ÿ™ŸÅÿßÿµŸäŸÑ ÿ£ŸÉÿ´ÿ±", "ÿ®ÿ≥ÿ∑", "ÿ®ÿ¥ŸÉŸÑ ÿ£ÿ®ÿ≥ÿ∑", "ÿ≥ÿßÿπÿØŸÜŸä ÿ£ŸÅŸáŸÖ", "ŸÖÿßÿ∞ÿß ÿ™ÿπŸÜŸä", "ÿßÿ¥ÿ±ÿ≠ ÿ£ŸÉÿ´ÿ±"]

def outOfDomainEn : List String :=
  ["weather", "recipe", "cook", "movie", "song", "music", "game", "sport", "football", "soccer", "basketball", "joke", "story", "poem", "write me", "create a", "translate", "what is the capital", "who is the president", "how to code", "python", "javascript", "programming", "health", "medical", "doctor", "disease", "travel", "hotel", "flight", "vacation"]

def outOfDomainAr : List String :=
  ["ÿßŸÑÿ∑ŸÇÿ≥", "ŸàÿµŸÅÿ©", "ÿ∑ÿ®ÿÆ", "ŸÅŸäŸÑŸÖ", "ÿ£ÿ∫ŸÜŸäÿ©", "ŸÖŸàÿ≥ŸäŸÇŸâ", "ŸÑÿπÿ®ÿ©", "ÿ±Ÿäÿßÿ∂ÿ©", "ŸÉÿ±ÿ© ÿßŸÑŸÇÿØŸÖ", "ŸÜŸÉÿ™ÿ©", "ŸÇÿµÿ©", "ŸÇÿµŸäÿØÿ©", "ÿ™ÿ±ÿ¨ŸÖ", "ÿπÿßÿµŸÖÿ©", "ÿ±ÿ¶Ÿäÿ≥", "ÿ®ÿ±ŸÖÿ¨ÿ©", "ÿµÿ≠ÿ©", "ÿ∑ÿ®Ÿäÿ®", "ÿ≥ŸÅÿ±"]

end Backend

namespace MainPy

def samaEn : List String :=
  ["sama", "finance company", "finance companies", "financing company", "licensing fee", "real estate finance", "mortgage", "microfinance", "finance control", "monetary authority", "bank", "banking"]

def cmaEn : List String :=
  ["cma", "capital market", "securities", "sukuk", "debt instrument", "investment fund", "qualified investor", "public offering", "ipo", "private placement", "prospectus", "listing", "merger", "acquisition", "stock", "shares", "exchange"]

def samaAr : List String :=
  ["ساما", "شركة التمويل", "شركات التمويل", "رسوم الترخيص", "التمويل العقاري", "التمويل الأصغر", "مؤسسة النقد", "البنك المركزي", "تمويل"]

def cmaAr : List String :=
  ["مستثمر مؤهل", "المستثمر المؤهل", "هيئة السوق المالية", "هيئة السوق", "صكوك", "الصكوك", "طرح عام", "طرح خاص", "نشرة الإصدار", "صناديق الاستثمار", "أوراق مالية", "الأوراق المالية", "سوق المال", "الاندماج", "الاستحواذ", "الأسهم", "التداول"]

def translations : List (String × String) :=
  [("رسوم الترخيص", "licensing fees"), ("رسوم ترخيص", "licensing fees"), ("شركات التمويل", "finance companies"), ("شركة التمويل", "finance company"), ("التمويل العقاري", "real estate finance"), ("التمويل الأصغر", "microfinance"), ("المستثمر المؤهل", "qualified investor"), ("مستثمر مؤهل", "qualified investor"), ("الصكوك", "sukuk debt instruments"), ("صكوك", "sukuk debt instruments"), ("أدوات الدين", "debt instruments"), ("طرح عام", "public offering"), ("طرح خاص", "private placement"), ("نشرة الإصدار", "prospectus"), ("صناديق الاستثمار", "investment funds"), ("صندوق استثمار", "investment fund"), ("رأس المال", "capital requirements"), ("متطلبات رأس المال", "capital requirements"), ("الحد الأدنى", "minimum requirements"), ("هيئة السوق المالية", "capital market authority CMA"), ("مؤسسة النقد", "SAMA monetary authority"), ("ساما", "SAMA"), ("الاندماج", "merger"), ("الاستحواذ", "acquisition"), ("الأسهم", "shares stocks"), ("الإفصاح", "disclosure"), ("الحوكمة", "governance"), ("مجلس الإدارة", "board of directors"), ("تقرير سنوي", "annual report"), ("القوائم المالية", "financial statements"), ("المراجع الخارجي", "external auditor"), ("العقوبات", "penalties"), ("المخالفات", "violations"), ("الترخيص", "license licensing"), ("التسجيل", "registration"), ("الإدراج", "listing"), ("السوق الموازية", "parallel market"), ("الطرح", "offering"), ("الاكتتاب", "subscription IPO")]

def expandMappings : List (String × String) :=
  [("sukuk", "debt instruments securities bonds"), ("sukuk issuance", "debt instruments offering securities"), ("debt instruments", "sukuk securities bonds"), ("licensing fee", "license fee financial consideration"), ("licensing fees", "license fee financial consideration"), ("qualified investor", "accredited investor"), ("capital requirements", "minimum capital paid up capital"), ("finance company", "finance companies"), ("microfinance", "micro finance small finance"), ("real estate finance", "mortgage property finance"), ("investment fund", "investment funds"), ("public offering", "IPO offering securities"), ("private placement", "exempt offering")]

def followUpEn : List String :=
  ["yes", "yeah", "sure", "please", "ok", "okay", "simplify", "explain", "example", "examples", "scenario", "more details", "elaborate", "clarify", "what do you mean", "can you explain", "help me understand", "break it down", "in simple terms", "simpler", "easier"]

def followUpAr : List String :=
  ["نعم", "أجل", "طيب", "حسنا", "موافق", "تمام", "وضح", "اشرح", "مثال", "أمثلة", "سيناريو", "تفاصيل أكثر", "بسط", "بشكل أبسط", "ساعدني أفهم", "ماذا تعني", "اشرح أكثر"]

def outOfDomainEn : List String :=
  ["weather", "recipe", "cook", "movie", "song", "music", "game", "sport", "football", "soccer", "basketball", "joke", "story", "poem", "write me", "create a", "translate", "what is the capital", "who is the president", "how to code", "python", "javascript", "programming", "health", "medical", "doctor", "disease", "travel", "hotel", "flight", "vacation"]

def outOfDomainAr : List String :=
  ["الطقس", "وصفة", "طبخ", "فيلم", "أغنية", "موسيقى", "لعبة", "رياضة", "كرة القدم", "نكتة", "قصة", "قصيدة", "ترجم", "عاصمة", "رئيس", "برمجة", "صحة", "طبيب", "سفر"]

end MainPy

def oodResponseAr : String :=
  "ÿπÿ∞ÿ±ÿßŸãÿå ÿ£ŸÜÿß ŸÖÿ≥ÿßÿπÿØ ŸÖÿ™ÿÆÿµÿµ ŸÅŸä ÿßŸÑÿ£ŸÜÿ∏ŸÖÿ© ÿßŸÑŸÖÿßŸÑŸäÿ© ÿßŸÑÿ≥ÿπŸàÿØŸäÿ© ŸÅŸÇÿ∑.\n\nŸäŸÖŸÉŸÜŸÜŸä ŸÖÿ≥ÿßÿπÿØÿ™ŸÉ ŸÅŸä:\n- **ÿ£ŸÜÿ∏ŸÖÿ© ÿ≥ÿßŸÖÿß**: ÿ¥ÿ±ŸÉÿßÿ™ ÿßŸÑÿ™ŸÖŸàŸäŸÑÿå ÿßŸÑÿ™ŸÖŸàŸäŸÑ ÿßŸÑÿπŸÇÿßÿ±Ÿäÿå ÿßŸÑÿ™ŸÖŸàŸäŸÑ ÿßŸÑÿ£ÿµÿ∫ÿ±\n- **ÿ£ŸÜÿ∏ŸÖÿ© ŸáŸäÿ¶ÿ© ÿßŸÑÿ≥ŸàŸÇ ÿßŸÑŸÖÿßŸÑŸäÿ©**: ÿßŸÑÿµŸÉŸàŸÉÿå ÿµŸÜÿßÿØŸäŸÇ ÿßŸÑÿßÿ≥ÿ™ÿ´ŸÖÿßÿ±ÿå ÿßŸÑŸÖÿ≥ÿ™ÿ´ŸÖÿ± ÿßŸÑŸÖÿ§ŸáŸÑÿå ÿßŸÑÿ∑ÿ±ÿ≠ ŸàÿßŸÑÿ•ÿØÿ±ÿßÿ¨\n\nŸäÿ±ÿ¨Ÿâ ÿ∑ÿ±ÿ≠ ÿ≥ÿ§ÿßŸÑ Ÿäÿ™ÿπŸÑŸÇ ÿ®Ÿáÿ∞Ÿá ÿßŸÑŸÖŸàÿßÿ∂Ÿäÿπ."

def oodResponseEn : String :=
  "I apologize, but I am a specialized assistant for Saudi Arabian financial regulations only.\n\nI can help you with:\n- **SAMA regulations**: Finance companies, real estate finance, microfinance\n- **CMA regulations**: Sukuk, investment funds, qualified investors, offerings and listings\n\nPlease ask a question related to these topics."

def noInfoEn : String :=
  "No relevant information found."

def noInfoAr : String :=
  "ŸÑŸÖ Ÿäÿ™ŸÖ ÿßŸÑÿπÿ´Ÿàÿ± ÿπŸÑŸâ ŸÖÿπŸÑŸàŸÖÿßÿ™ ÿ∞ÿßÿ™ ÿµŸÑÿ©."

/-- Count of characters in the Arabic Unicode block U+0600–U+06FF, modelling
`len(re.findall(r'[؀-ۿ]', text))`. -/
def arabicCharCount (t : String) : ℕ :=
  (t.data.filter (fun c => decide (0x600 ≤ c.toNat) && decide (c.toNat ≤ 0x6FF))).length

/-- Python `' '.join`-style concatenation with a separator between elements. -/
def joinSep (sep : String) : List String → String
  | [] => ""
  | [s] => s
  | s :: ss => s ++ sep ++ joinSep sep ss

/-- Number of maximal non-whitespace runs, modelling `len(s.split())`. -/
def pyWordCount (s : String) : ℕ :=
  (s.data.foldl
    (fun st c =>
      if c.isWhitespace then (st.1, false)
      else if st.2 then st else (st.1 + 1, true))
    ((0, false) : ℕ × Bool)).1

namespace Backend

/-- `backend.py` `TadqeeqRAG.detect_language`: `'ar'` when the Arabic-block
character count strictly exceeds `len(text) * 0.3`, else `'en'`. -/
def detect_language (text : String) : String :=
  if (arabicCharCount text : ℚ) > (text.length : ℚ) * (3 / 10) then "ar" else "en"

/-- `backend.py` `TadqeeqRAG.detect_regulator`: keyword routing to SAMA, CMA
or BOTH; English keywords checked on the lowercased query, Arabic-table
keywords on the raw query. -/
def detect_regulator (query : String) : String :=
  let q_lower := pyLowerStr query
  let sama_match := samaEn.any (fun kw => containsSub kw q_lower)
    || samaAr.any (fun kw => containsSub kw query)
  let cma_match := cmaEn.any (fun kw => containsSub kw q_lower)
    || cmaAr.any (fun kw => containsSub kw query)
  if sama_match && cma_match then "BOTH"
  else if sama_match then "SAMA"
  else if cma_match then "CMA"
  else "BOTH"

/-- `backend.py` `TadqeeqRAG.translate_arabic_query`: starting from the query
itself, appends `' ' + en` for every table entry whose key occurs in the
query, then returns the accumulator (the final conditional returns the same
value on both branches, as in the source). -/
def translate_arabic_query (query : String) : String :=
  let result := translations.foldl
    (fun result e => if containsSub e.1 query then result ++ " " ++ e.2 else result) query
  if result ≠ query then result else query

/-- `backend.py` `TadqeeqRAG.expand_query`: appends the space-joined
expansions of every trigger phrase found in the lowercased query. -/
def expand_query (query : String) (lang : String) : String :=
  let q := pyLowerStr query
  let expansions := (expandMappings.filter (fun e => containsSub e.1 q)).map (fun e => e.2)
  if expansions ≠ [] then query ++ " " ++ joinSep " " expansions else query

/-- `backend.py` `TadqeeqRAG.is_follow_up`: pattern tables plus the
short-query heuristic (`len(query.strip()) < 15 and len(query.split()) <= 3`). -/
def is_follow_up (query : String) : Bool :=
  let query_lower := (pyLowerStr query).trim
  if followUpEn.any (fun p => containsSub p query_lower) then true
  else if followUpAr.any (fun p => containsSub p query) then true
  else if query.trim.length < 15 ∧ pyWordCount query ≤ 3 then true
  else false

/-- `backend.py` `TadqeeqRAG.is_out_of_domain`: substring match of the
off-topic terms against the lowercased query.  The source writes the terms
as one literal list mixing the Latin and Arabic parts; the embedding splits
it at the script boundary and concatenates, preserving order. -/
def is_out_of_domain (query : String) : Bool :=
  let query_lower := pyLowerStr query
  (outOfDomainEn ++ outOfDomainAr).any (fun term => containsSub term query_lower)

/-- `backend.py` `TadqeeqRAG.build_out_of_domain_response`: canned refusal
text selected by language. -/
def build_out_of_domain_response (language : String) : String :=
  if language = "ar" then oodResponseAr else oodResponseEn

end Backend

namespace MainPy

/-- `main.py` `TadqeeqRAG.detect_language`. -/
def detect_language (text : String) : String :=
  if (arabicCharCount text : ℚ) > (text.length : ℚ) * (3 / 10) then "ar" else "en"

/-- `main.py` `TadqeeqRAG.detect_regulator`. -/
def detect_regulator (query : String) : String :=
  let q_lower := pyLowerStr query
  let sama_match := samaEn.any (fun kw => containsSub kw q_lower)
    || samaAr.any (fun kw => containsSub kw query)
  let cma_match := cmaEn.any (fun kw => containsSub kw q_lower)
    || cmaAr.any (fun kw => containsSub kw query)
  if sama_match && cma_match then "BOTH"
  else if sama_match then "SAMA"
  else if cma_match then "CMA"
  else "BOTH"

/-- `main.py` `TadqeeqRAG.translate_arabic_query`. -/
def translate_arabic_query (query : String) : String :=
  let result := translations.foldl
    (fun result e => if containsSub e.1 query then result ++ " " ++ e.2 else result) query
  if result ≠ query then result else query

/-- `main.py` `TadqeeqRAG.expand_query`. -/
def expand_query (query : String) (lang : String) : String :=
  let q := pyLowerStr query
  let expansions := (expandMappings.filter (fun e => containsSub e.1 q)).map (fun e => e.2)
  if expansions ≠ [] then query ++ " " ++ joinSep " " expansions else query

/-- `main.py` `TadqeeqRAG.is_follow_up`. -/
def is_follow_up (query : String) : Bool :=
  let query_lower := (pyLowerStr query).trim
  if followUpEn.any (fun p => containsSub p query_lower) then true
  else if followUpAr.any (fun p => containsSub p query) then true
  else if query.trim.length < 15 ∧ pyWordCount query ≤ 3 then true
  else false

/-- `main.py` `TadqeeqRAG.is_out_of_domain`; the one-literal off-topic list
is split at the script boundary as in the `Backend` embedding. -/
def is_out_of_domain (query : String) : Bool :=
  let query_lower := pyLowerStr query
  (outOfDomainEn ++ outOfDomainAr).any (fun term => containsSub term query_lower)

end MainPy

/-- Character classes of the query tokenizer regex
`[؀-ۿ]+|[a-zA-Z]+|[0-9]+`: 1 = Arabic block, 2 = ASCII letter, 3 = digit,
0 = separator. -/
def charClass (c : Char) : ℕ :=
  if 0x600 ≤ c.toNat ∧ c.toNat ≤ 0x6FF then 1
  else if c.isAlpha then 2
  else if c.isDigit then 3
  else 0

/-- Accumulator-style scan producing the maximal same-class runs the regex
`findall` yields, left to right; `cur` carries the class and the reversed
characters of the run in progress. -/
def tokenizeAux : List Char → Option (ℕ × List Char) → List (List Char)
  | [], none => []
  | [], some cur => [cur.2.reverse]
  | c :: cs, none =>
    if charClass c = 0 then tokenizeAux cs none
    else tokenizeAux cs (some (charClass c, [c]))
  | c :: cs, some cur =>
    if charClass c = cur.1 then tokenizeAux cs (some (cur.1, c :: cur.2))
    else cur.2.reverse ::
      tokenizeAux cs (if charClass c = 0 then none else some (charClass c, [c]))

/-- `re.findall(r'[؀-ۿ]+|[a-zA-Z]+|[0-9]+', s)`: the maximal runs of
Arabic-block, ASCII-letter and digit characters, in order. -/
def tokenize (s : List Char) : List (List Char) := tokenizeAux s none

/-- One step of the `bm25_search` result loop over the descending score
order: skip once `top_k` results are collected or the index is out of range,
apply the regulator and language filters, and keep strictly positive scores. -/
def bm25Step (documents : List Doc) (scores : List ℚ) (regulator search_lang : String)
    (top_k : ℕ) (results : List Candidate) (idx : ℕ) : List Candidate :=
  if top_k ≤ results.length ∨ documents.length ≤ idx then results
  else
    let doc := documents.getD idx default
    if regulator ≠ "BOTH" ∧ doc.regulator? ≠ some regulator then results
    else if doc.language? ≠ some search_lang then results
    else if 0 < scores.getD idx 0 then results ++ [⟨doc, scores.getD idx 0, "bm25"⟩]
    else results

/-- Indices of `scores` in descending score order, modelling
`np.argsort(scores)[::-1]` (the tie order among equal scores is not fixed by
the source; the properties proved below hold for any order). -/
def argsortDesc (scores : List ℚ) : List ℕ :=
  List.insertionSort (fun i j => scores.getD j 0 ≤ scores.getD i 0)
    (List.range scores.length)

/-- `backend.py` `TadqeeqRAG.bm25_search`.  The external
`self.bm25.get_scores(tokens)` array enters as the `scores` parameter; the
in-memory document list as `documents`. -/
def bm25_search (documents : List Doc) (scores : List ℚ) (query : String)
    (regulator language : String) (top_k : ℕ) (force_english : Bool) : List Candidate :=
  let search_lang := if force_english then "en" else language
  let tokens := tokenize ((pyLowerStr query).data)
  if tokens = [] then []
  else (argsortDesc scores).foldl (bm25Step documents scores regulator search_lang top_k) []

/-- One iteration of the `semantic_search` result loop: client-side
regulator/language filters, then the converted candidate with score
`1/(1+dist)` appended. -/
def semStep (regulator search_lang : String) (output : List Candidate)
    (x : String × Meta × ℚ) : List Candidate :=
  let m := x.2.1
  if regulator ≠ "BOTH" ∧ m.regulator? ≠ some regulator then output
  else if m.language? ≠ some search_lang then output
  else output ++ [⟨⟨m.document?.getD "", m.article?.getD "",
    some (m.regulator?.getD ""), some (m.language?.getD ""), x.1⟩,
    1 / (1 + x.2.2), "semantic"⟩]

/-- `backend.py` `TadqeeqRAG.semantic_search` after the vector-index call:
the neighbor document texts, metadata and distances returned by
`collection.query` enter as parameters, and the loop zips them, applies the
client-side regulator/language filters, converts each distance `d` to the
score `1/(1+d)` and truncates to `top_k`. -/
def semantic_search (qdocs : List String) (metas : List Meta) (dists : List ℚ)
    (regulator language : String) (top_k : ℕ) (force_english : Bool) : List Candidate :=
  let search_lang := if force_english then "en" else language
  ((qdocs.zip (metas.zip dists)).foldl (semStep regulator search_lang) []).take top_k

/-- The reciprocal-rank-fusion contribution of rank `rank` (0 = best) with
the source's constant `k = 60`: `1/(k + rank + 1)`. -/
def rrfTerm (rank : ℕ) : ℚ := 1 / (60 + (rank : ℚ) + 1)

/-- The fusion dictionary key `f"{doc['document']}:{doc['article']}"`. -/
def docKey (d : Doc) : String := d.document ++ ":" ++ d.article

/-- One accumulated fusion entry: the dictionary value
`{'doc': ..., 'rrf': ..., 'src': ...}` together with its key. -/
structure FuseEntry where
  key : String
  doc : Doc
  rrf : ℚ
  src : List String
deriving DecidableEq, Inhabited, Repr

/-- Python `set.add` on the insertion-ordered list modelling `src`. -/
def addSrc (l : List String) (s : String) : List String :=
  if s ∈ l then l else l ++ [s]

/-- Fold `addSrc` over a list of labels. -/
def addSrcs (l : List String) (ss : List String) : List String := ss.foldl addSrc l

/-- One iteration of the fusion loop body: insert a zero entry when the key
is new (dict insertion appends), then add `t` to its `rrf` and `s` to its
`src`. -/
def upsert (acc : List FuseEntry) (d : Doc) (t : ℚ) (s : String) : List FuseEntry :=
  let acc' := if acc.any (fun e => decide (e.key = docKey d)) then acc
    else acc ++ [⟨docKey d, d, 0, []⟩]
  acc'.map (fun e =>
    if e.key = docKey d then { e with rrf := e.rrf + t, src := addSrc e.src s } else e)

/-- A (weight, source label, document) triple: one enumerated result of one
retriever, carrying its reciprocal-rank weight. -/
def weighted (label : String) (rs : List Candidate) : List (ℚ × String × Doc) :=
  rs.enum.map (fun e => (rrfTerm e.1, label, e.2.doc))

/-- Fold the fusion loop body over a list of weighted results. -/
def fuseFold (acc : List FuseEntry) (ps : List (ℚ × String × Doc)) : List FuseEntry :=
  ps.foldl (fun a p => upsert a p.2.2 p.1 p.2.1) acc

/-- The fusion dictionary of `hybrid_search` after both loops, in insertion
order: the BM25 loop runs first, the semantic loop second. -/
def fuseEntries (bm25_res sem_res : List Candidate) : List FuseEntry :=
  fuseFold (fuseFold [] (weighted "BM25" bm25_res)) (weighted "Semantic" sem_res)

/-- `sorted(doc_scores.values(), key=lambda x: x['rrf'], reverse=True)`:
stable sort of the insertion-ordered entries by accumulated score,
descending. -/
def fusedRanking (bm25_res sem_res : List Candidate) : List FuseEntry :=
  (fuseEntries bm25_res sem_res).mergeSort (fun a b => decide (b.rrf ≤ a.rrf))

/-- The fusion step of `backend.py` `TadqeeqRAG.hybrid_search`: rank the
fused entries and return the document records of the top `n_results`. -/
def hybridFuse (bm25_res sem_res : List Candidate) (n_results : ℕ) : List Doc :=
  ((fusedRanking bm25_res sem_res).take n_results).map (fun e => e.doc)

/-! Specification-side restatement of the fusion step, following the spec's
words: per-(document, article) key accumulation of `1/(60 + rank + 1)` over
every occurrence in either list, keys kept in order of first appearance,
then the same stable descending sort and truncation. -/

/-- Both result lists as one weighted sequence, BM25 first. -/
def allPairs (bm25_res sem_res : List Candidate) : List (ℚ × String × Doc) :=
  weighted "BM25" bm25_res ++ weighted "Semantic" sem_res

/-- The fusion key of a weighted result. -/
def pairKey (p : ℚ × String × Doc) : String := docKey p.2.2

/-- Total reciprocal-rank weight accumulated by key `k` over a weighted
sequence: the sum of the weights of the occurrences of `k`. -/
def keyWeight (k : String) : List (ℚ × String × Doc) → ℚ
  | [] => 0
  | p :: ps => (if pairKey p = k then p.1 else 0) + keyWeight k ps

/-- Source labels of the occurrences of key `k`, in order. -/
def matchLabels (k : String) : List (ℚ × String × Doc) → List String
  | [] => []
  | p :: ps => if pairKey p = k then p.2.1 :: matchLabels k ps else matchLabels k ps

/-- The document record stored for key `k`: the one of its first occurrence. -/
def keyDoc (k : String) (ps : List (ℚ × String × Doc)) : Doc :=
  ((ps.find? (fun p => decide (pairKey p = k))).map (fun p => p.2.2)).getD default

/-- The contributing-source set for key `k`, as a first-occurrence list. -/
def keySrcs (k : String) (ps : List (ℚ × String × Doc)) : List String :=
  addSrcs [] (matchLabels k ps)

/-- The fused entry the specification assigns to key `k`. -/
def entryFor (ps : List (ℚ × String × Doc)) (k : String) : FuseEntry :=
  ⟨k, keyDoc k ps, keyWeight k ps, keySrcs k ps⟩

/-- A list deduplicated to the first occurrence of each element, in order. -/
def firstKeys (ks : List String) : List String := addSrcs [] ks

/-- First occurrences of the keys not yet in `seen`, in order. -/
def newKeysStr : List String → List String → List String
  | [], _ => []
  | k :: ks, seen =>
    if k ∈ seen then newKeysStr ks seen else k :: newKeysStr ks (seen ++ [k])

/-- The specification's fused entry list: one entry per distinct key in
first-appearance order, carrying the accumulated weight over all
occurrences. -/
def specEntries (bm25_res sem_res : List Candidate) : List FuseEntry :=
  (firstKeys ((allPairs bm25_res sem_res).map pairKey)).map
    (entryFor (allPairs bm25_res sem_res))

/-- The specification's fusion output: sort the accumulated keys by score
descending (stable, ties in first-appearance order), take the top
`n_results`, return their document records. -/
def hybridFuseSpec (bm25_res sem_res : List Candidate) (n_results : ℕ) : List Doc :=
  (((specEntries bm25_res sem_res).mergeSort (fun a b => decide (b.rrf ≤ a.rrf))).take
    n_results).map (fun e => e.doc)

/-- Adding the whole contribution of a weighted sequence to an existing
entry, used to characterise the fusion fold. -/
def bump (ps : List (ℚ × String × Doc)) (e : FuseEntry) : FuseEntry :=
  ⟨e.key, e.doc, e.rrf + keyWeight e.key ps, addSrcs e.src (matchLabels e.key ps)⟩

/-! The startup statistics tally of `TadqeeqRAG`'s loader, and the response
assembly of `generate_response`. -/

/-- The `self.stats` counters `{'SAMA': {'en', 'ar'}, 'CMA': {'en', 'ar'}}`. -/
structure Stats where
  samaEnCount : ℕ
  samaArCount : ℕ
  cmaEnCount : ℕ
  cmaArCount : ℕ
deriving DecidableEq, Inhabited, Repr

/-- `self.stats[reg][lang] += 1`: `none` models the `KeyError` raised when
the regulator or language value is not one of the four dictionary keys. -/
def bumpStat (s : Stats) (reg lang : String) : Option Stats :=
  if reg = "SAMA" then
    if lang = "en" then some { s with samaEnCount := s.samaEnCount + 1 }
    else if lang = "ar" then some { s with samaArCount := s.samaArCount + 1 }
    else none
  else if reg = "CMA" then
    if lang = "en" then some { s with cmaEnCount := s.cmaEnCount + 1 }
    else if lang = "ar" then some { s with cmaArCount := s.cmaArCount + 1 }
    else none
  else none

/-- The loader's statistics loop over the loaded document records:
`reg = doc.get('regulator', 'CMA')`, `lang = doc.get('language', 'en')`,
`self.stats[reg][lang] += 1`. -/
def tallyStats (documents : List Doc) : Option Stats :=
  documents.foldlM
    (fun s d => bumpStat s (d.regulator?.getD "CMA") (d.language?.getD "en"))
    ⟨0, 0, 0, 0⟩

/-- A record with its missing regulator/language fields replaced by the
loader's fallback values. -/
def fillDefaults (d : Doc) : Doc :=
  { d with regulator? := some (d.regulator?.getD "CMA"),
           language? := some (d.language?.getD "en") }

/-- One entry of the `sources` list returned to the caller. -/
structure SourceRef where
  article : String
  document : String
deriving DecidableEq, Inhabited, Repr

/-- The `sources` comprehension of `generate_response`:
`[{'article': ..., 'document': ...} for d in docs if d['article'] not in seen
and not seen.add(d['article'])]`, with the `seen` set as an explicit
accumulator. -/
def dedupSourcesAux : List Doc → List String → List SourceRef
  | [], _ => []
  | d :: ds, seen =>
    if d.article ∈ seen then dedupSourcesAux ds seen
    else ⟨d.article, d.document⟩ :: dedupSourcesAux ds (seen ++ [d.article])

/-- The deduplicated `sources` list built from the retrieved documents. -/
def dedupSources (docs : List Doc) : List SourceRef := dedupSourcesAux docs []

/-- One turn of the conversation context handed to the prompt builder. -/
structure ChatMsg where
  role : String
  content : String
deriving DecidableEq, Inhabited, Repr

/-- The structured value `generate_response` returns to the caller. -/
structure RAGResponse where
  answer : String
  sources : List SourceRef
  regulator : String
deriving DecidableEq, Inhabited, Repr

/-- `backend.py` `TadqeeqRAG.generate_response`, with its external
collaborators as parameters: `retrieve` is `self.hybrid_search`, `llm` the
Ollama generation call, `bp` is `build_prompt`, and `histCtx` the value
`self.chat_history.get_conversation_context()` would return.  The second
component counts how many times the retrieval pipeline is invoked on the
query. -/
def generate_response (retrieve : String → List Doc × String × String)
    (llm : String → String)
    (bp : String → List Doc → String → Bool → Option (List ChatMsg) → String)
    (histCtx : List ChatMsg) (question : String) : RAGResponse × ℕ :=
  let lang := Backend.detect_language question
  if Backend.is_out_of_domain question then
    (⟨Backend.build_out_of_domain_response lang, [], "NONE"⟩, 0)
  else
    let is_followup := Backend.is_follow_up question
    let conversation_context := if is_followup then some histCtx else none
    let r := retrieve question
    if r.1 = [] then
      (⟨if r.2.2 = "en" then noInfoEn else noInfoAr, [], r.2.1⟩, 1)
    else
      (⟨llm (bp question r.1 r.2.2 is_followup conversation_context),
        dedupSources r.1, r.2.1⟩, 1)

/-! Lemmas characterising the fusion fold. -/

theorem addSrcs_cons (l : List String) (x : String) (xs : List String) :
    addSrcs l (x :: xs) = addSrcs (addSrc l x) xs := rfl

theorem newKeysStr_not_mem {k : String} :
    ∀ (ks seen : List String), k ∈ newKeysStr ks seen → k ∉ seen := by
  intro ks
  induction ks with
  | nil => intro seen h; simp [newKeysStr] at h
  | cons k' ks ih =>
    intro seen h
    by_cases hk' : k' ∈ seen
    · rw [newKeysStr, if_pos hk'] at h
      exact ih seen h
    · rw [newKeysStr, if_neg hk'] at h
      rcases List.mem_cons.mp h with h | h
      · subst h; exact hk'
      · intro hmem
        exact ih (seen ++ [k']) h (List.mem_append_left _ hmem)

theorem addSrcs_eq_append :
    ∀ (ks seen : List String), addSrcs seen ks = seen ++ newKeysStr ks seen := by
  intro ks
  induction ks with
  | nil => intro seen; simp [addSrcs, newKeysStr]
  | cons k ks ih =>
    intro seen
    rw [addSrcs_cons]
    by_cases hk : k ∈ seen
    · rw [newKeysStr, if_pos hk, show addSrc seen k = seen from if_pos hk]
      exact ih seen
    · rw [newKeysStr, if_neg hk, show addSrc seen k = seen ++ [k] from if_neg hk, ih]
      simp [List.append_assoc]

theorem any_key_eq (acc : List FuseEntry) (d : Doc) :
    (acc.any (fun e => decide (e.key = docKey d)) = true) ↔
      docKey d ∈ acc.map (fun e => e.key) := by
  rw [List.any_eq_true]
  constructor
  · rintro ⟨e, he, hk⟩
    exact List.mem_map.mpr ⟨e, he, of_decide_eq_true hk⟩
  · intro h
    rcases List.mem_map.mp h with ⟨e, he, hk⟩
    exact ⟨e, he, decide_eq_true hk⟩

theorem upsert_of_mem {acc : List FuseEntry} {d : Doc}
    (h : docKey d ∈ acc.map (fun e => e.key)) (t : ℚ) (s : String) :
    upsert acc d t s = acc.map (fun e =>
      if e.key = docKey d then { e with rrf := e.rrf + t, src := addSrc e.src s } else e) := by
  unfold upsert
  rw [if_pos ((any_key_eq acc d).mpr h)]

theorem upsert_of_not_mem {acc : List FuseEntry} {d : Doc}
    (h : docKey d ∉ acc.map (fun e => e.key)) (t : ℚ) (s : String) :
    upsert acc d t s = acc ++ [⟨docKey d, d, 0 + t, addSrc [] s⟩] := by
  unfold upsert
  rw [if_neg (fun hc => h ((any_key_eq acc d).mp hc))]
  rw [List.map_append]
  have h1 : acc.map (fun e =>
      if e.key = docKey d then { e with rrf := e.rrf + t, src := addSrc e.src s } else e) = acc := by
    rw [List.map_congr_left (g := id), List.map_id]
    intro e he
    have : e.key ≠ docKey d := by
      intro hk
      exact h (List.mem_map.mpr ⟨e, he, hk⟩)
    simp [this]
  rw [h1]
  simp

theorem bump_nil (e : FuseEntry) : bump [] e = e := by
  simp [bump, keyWeight, matchLabels, addSrcs]

theorem bump_updFn (p : ℚ × String × Doc) (ps : List (ℚ × String × Doc)) (e : FuseEntry) :
    bump ps (if e.key = docKey p.2.2
      then { e with rrf := e.rrf + p.1, src := addSrc e.src p.2.1 } else e)
      = bump (p :: ps) e := by
  by_cases h : e.key = pairKey p
  · have h' : pairKey p = e.key := h.symm
    simp [pairKey] at h
    simp [bump, keyWeight, matchLabels, h, h', addSrcs_cons, add_assoc, pairKey]
  · have h2 : ¬ (e.key = docKey p.2.2) := h
    have h' : ¬ (pairKey p = e.key) := fun hh => h hh.symm
    simp [bump, keyWeight, matchLabels, h2, h']

theorem bump_cons_ne {p : ℚ × String × Doc} {e : FuseEntry}
    (h : e.key ≠ pairKey p) (ps : List (ℚ × String × Doc)) :
    bump (p :: ps) e = bump ps e := by
  have h' : ¬ (pairKey p = e.key) := fun hh => h hh.symm
  simp [bump, keyWeight, matchLabels, h']

theorem entryFor_cons_ne {k : String} {p : ℚ × String × Doc}
    (ps : List (ℚ × String × Doc)) (h : k ≠ pairKey p) :
    entryFor (p :: ps) k = entryFor ps k := by
  have h' : ¬ (pairKey p = k) := fun hh => h hh.symm
  have hfind : List.find? (fun q => decide (pairKey q = k)) (p :: ps)
      = List.find? (fun q => decide (pairKey q = k)) ps :=
    List.find?_cons_of_neg _ (by simp [h'])
  simp [entryFor, keyWeight, matchLabels, keyDoc, keySrcs, h', hfind]

theorem upd_key (p : ℚ × String × Doc) (e : FuseEntry) :
    (if e.key = docKey p.2.2
      then { e with rrf := e.rrf + p.1, src := addSrc e.src p.2.1 } else e).key = e.key := by
  by_cases h : e.key = docKey p.2.2 <;> simp [h]

/-- The fusion fold from any starting dictionary: existing entries get the
whole contribution of the remaining weighted sequence added, and the keys
not yet present are appended in first-appearance order with their full
accumulated entries. -/
theorem newKeysStr_cons (k : String) (ks seen : List String) :
    newKeysStr (k :: ks) seen =
      if k ∈ seen then newKeysStr ks seen else k :: newKeysStr ks (seen ++ [k]) := rfl

/-- The fusion fold from any starting dictionary: existing entries get the
whole contribution of the remaining weighted sequence added, and the keys
not yet present are appended in first-appearance order with their full
accumulated entries. -/
theorem fuseFold_eq (ps : List (ℚ × String × Doc)) :
    ∀ acc : List FuseEntry,
      fuseFold acc ps = acc.map (bump ps)
        ++ (newKeysStr (ps.map pairKey) (acc.map (fun e => e.key))).map (entryFor ps) := by
  induction ps with
  | nil =>
    intro acc
    simp [fuseFold, newKeysStr, List.map_congr_left (fun e _ => bump_nil e)]
  | cons p ps ih =>
    intro acc
    have hstep : fuseFold acc (p :: ps) = fuseFold (upsert acc p.2.2 p.1 p.2.1) ps := rfl
    rw [hstep, ih]
    rw [List.map_cons, newKeysStr_cons]
    by_cases hmem : pairKey p ∈ acc.map (fun e => e.key)
    · rw [if_pos hmem]
      have hmem' : docKey p.2.2 ∈ acc.map (fun e => e.key) := hmem
      rw [upsert_of_mem hmem']
      have hkeys : (acc.map (fun e =>
          if e.key = docKey p.2.2
            then { e with rrf := e.rrf + p.1, src := addSrc e.src p.2.1 } else e)).map
            (fun e => e.key) = acc.map (fun e => e.key) := by
        rw [List.map_map]
        exact List.map_congr_left (fun e _ => upd_key p e)
      rw [hkeys, List.map_map]
      have hb : acc.map ((fun e => bump ps e) ∘ (fun e =>
          if e.key = docKey p.2.2
            then { e with rrf := e.rrf + p.1, src := addSrc e.src p.2.1 } else e))
          = acc.map (bump (p :: ps)) :=
        List.map_congr_left (fun e _ => bump_updFn p ps e)
      rw [hb]
      congr 1
      exact List.map_congr_left (fun k hk =>
        (entryFor_cons_ne ps (fun hkp =>
          (newKeysStr_not_mem _ _ hk) (by rw [hkp]; exact hmem))).symm)
    · rw [if_neg hmem]
      have hmem' : docKey p.2.2 ∉ acc.map (fun e => e.key) := hmem
      rw [upsert_of_not_mem hmem']
      rw [List.map_append, List.map_append]
      have hkeys : (List.map (fun e => e.key)
          [(⟨docKey p.2.2, p.2.2, 0 + p.1, addSrc [] p.2.1⟩ : FuseEntry)]) = [pairKey p] := rfl
      rw [hkeys]
      have hb : acc.map (bump ps) = acc.map (bump (p :: ps)) :=
        List.map_congr_left (fun e he => (bump_cons_ne
          (fun hk => hmem (by rw [← hk]; exact List.mem_map.mpr ⟨e, he, rfl⟩)) ps).symm)
      have hhead : List.map (bump ps)
            [(⟨docKey p.2.2, p.2.2, 0 + p.1, addSrc [] p.2.1⟩ : FuseEntry)]
          = [entryFor (p :: ps) (pairKey p)] := by
        have hfind : List.find? (fun q => decide (pairKey q = pairKey p)) (p :: ps) = some p :=
          List.find?_cons_of_pos _ (by simp)
        have hkd : keyDoc (pairKey p) (p :: ps) = p.2.2 := by
          unfold keyDoc
          rw [hfind]
          rfl
        have he : entryFor (p :: ps) (pairKey p) =
            ⟨pairKey p, p.2.2, p.1 + keyWeight (pairKey p) ps,
              addSrcs (addSrc [] p.2.1) (matchLabels (pairKey p) ps)⟩ := by
          unfold entryFor keySrcs
          rw [hkd,
            show keyWeight (pairKey p) (p :: ps)
              = (if pairKey p = pairKey p then p.1 else 0) + keyWeight (pairKey p) ps from rfl,
            if_pos rfl,
            show matchLabels (pairKey p) (p :: ps)
              = if pairKey p = pairKey p then p.2.1 :: matchLabels (pairKey p) ps
                else matchLabels (pairKey p) ps from rfl,
            if_pos rfl, addSrcs_cons]
        simp only [List.map_cons, List.map_nil]
        congr 1
        show (⟨docKey p.2.2, p.2.2, (0 + p.1) + keyWeight (docKey p.2.2) ps,
          addSrcs (addSrc [] p.2.1) (matchLabels (docKey p.2.2) ps)⟩ : FuseEntry)
          = entryFor (p :: ps) (pairKey p)
        rw [he, zero_add]
        rfl
      have htail : (newKeysStr (ps.map pairKey) (acc.map (fun e => e.key) ++ [pairKey p])).map
            (entryFor ps)
          = (newKeysStr (ps.map pairKey) (acc.map (fun e => e.key) ++ [pairKey p])).map
            (entryFor (p :: ps)) :=
        List.map_congr_left (fun k hk => (entryFor_cons_ne ps (fun hkp =>
          (newKeysStr_not_mem _ _ hk)
            (by rw [hkp]; exact List.mem_append_right _ (List.mem_singleton.mpr rfl)))).symm)
      rw [hb, hhead, htail]
      simp [List.append_assoc]

/-- The fusion dictionary equals the specification's entry list. -/
theorem fuseEntries_eq_spec (bm25_res sem_res : List Candidate) :
    fuseEntries bm25_res sem_res = specEntries bm25_res sem_res := by
  have h1 : fuseEntries bm25_res sem_res = fuseFold [] (allPairs bm25_res sem_res) := by
    unfold fuseEntries allPairs fuseFold
    rw [List.foldl_append]
  rw [h1, fuseFold_eq]
  unfold specEntries firstKeys
  rw [addSrcs_eq_append]
  simp

theorem fuse_le_trans (a b c : FuseEntry)
    (hab : decide (b.rrf ≤ a.rrf) = true) (hbc : decide (c.rrf ≤ b.rrf) = true) :
    decide (c.rrf ≤ a.rrf) = true := by
  rw [decide_eq_true_eq] at *
  exact le_trans hbc hab

theorem fuse_le_total (a b : FuseEntry) :
    (decide (b.rrf ≤ a.rrf) || decide (a.rrf ≤ b.rrf)) = true := by
  rw [Bool.or_eq_true, decide_eq_true_eq, decide_eq_true_eq]
  exact le_total b.rrf a.rrf

/-- The fused ranking is sorted by accumulated score, descending. -/
theorem fusedRanking_sorted (bm25_res sem_res : List Candidate) :
    (fusedRanking bm25_res sem_res).Pairwise (fun a b => b.rrf ≤ a.rrf) := by
  have h := @List.sorted_mergeSort FuseEntry (fun a b => decide (b.rrf ≤ a.rrf))
    (fuse_le_trans) (fuse_le_total) (fuseEntries bm25_res sem_res)
  exact h.imp (fun hab => of_decide_eq_true hab)

/-- C1: for every pair of lexical and semantic result lists and every
`n_results`, the fusion step of `hybrid_search` equals the specification's
description: it accumulates, per `(document, article)` key, `1/(60+rank+1)`
from each occurrence in each list (rank 0 = best), keeps the keys in
first-appearance order, sorts them by accumulated score descending (the
ranking is sorted, and ties keep their insertion order: any two entries of
the fusion dictionary already ordered by non-increasing score stay in that
relative order), and returns the document records of the top `n_results`
keys; on two empty input lists it returns the empty list. -/
theorem c1_hybrid_fusion_rrf (bm25_res sem_res : List Candidate) (n_results : ℕ) :
    hybridFuse bm25_res sem_res n_results = hybridFuseSpec bm25_res sem_res n_results
    ∧ (fusedRanking bm25_res sem_res).Pairwise (fun a b => b.rrf ≤ a.rrf)
    ∧ (∀ a b : FuseEntry, [a, b].Sublist (fuseEntries bm25_res sem_res) →
        b.rrf ≤ a.rrf → [a, b].Sublist (fusedRanking bm25_res sem_res))
    ∧ hybridFuse [] [] n_results = [] := by
  refine ⟨?_, fusedRanking_sorted _ _, ?_, ?_⟩
  · unfold hybridFuse hybridFuseSpec fusedRanking
    rw [fuseEntries_eq_spec]
  · intro a b hsub hle
    refine List.sublist_mergeSort fuse_le_trans fuse_le_total ?_ hsub
    refine List.Pairwise.cons ?_ (List.pairwise_singleton _ _)
    intro x hx
    rcases List.mem_singleton.mp hx with h
    subst h
    exact decide_eq_true hle
  · simp [hybridFuse, fusedRanking, fuseEntries, weighted, fuseFold, List.mergeSort_nil]

/-- C7: a key appearing in both input lists at ranks `r1` and `r2` receives
the fused score `rrfTerm r1 + rrfTerm r2`, which is strictly greater than
the contribution either list alone gives it at the same rank. -/
theorem c7_rrf_fused_score_monotonicity (r1 r2 : ℕ) :
    rrfTerm r1 < rrfTerm r1 + rrfTerm r2 ∧ rrfTerm r2 < rrfTerm r1 + rrfTerm r2 := by
  have hpos : ∀ r : ℕ, 0 < rrfTerm r := fun r => by
    unfold rrfTerm
    positivity
  exact ⟨lt_add_of_pos_right _ (hpos r2), lt_add_of_pos_left _ (hpos r1)⟩

/-- C5: `detect_language` returns `'ar'` exactly when the Arabic-block
character count strictly exceeds 30% of the total character count, `'en'`
otherwise (including at exactly the 0.30 fraction), and `'en'` on the empty
string; being a total function, no input raises an error. -/
theorem c5_detect_language_threshold (t : String) :
    (Backend.detect_language t = "ar" ↔ 3 * t.length < 10 * arabicCharCount t)
    ∧ (Backend.detect_language t = "en" ↔ ¬ 3 * t.length < 10 * arabicCharCount t)
    ∧ Backend.detect_language "" = "en" := by
  have key : ((t.length : ℚ) * (3 / 10) < (arabicCharCount t : ℚ)) ↔
      3 * t.length < 10 * arabicCharCount t := by
    constructor
    · intro h
      have h10 : ((3 * t.length : ℕ) : ℚ) < ((10 * arabicCharCount t : ℕ) : ℚ) := by
        push_cast
        linarith
      exact_mod_cast h10
    · intro h
      have h10 : ((3 * t.length : ℕ) : ℚ) < ((10 * arabicCharCount t : ℕ) : ℚ) := by
        exact_mod_cast h
      push_cast at h10
      linarith
  have hempty : Backend.detect_language "" = "en" := by
    have h0 : arabicCharCount "" = 0 := by decide
    have hl : ("" : String).length = 0 := by decide
    unfold Backend.detect_language
    rw [h0, hl, if_neg (by norm_num)]
  refine ⟨?_, ?_, hempty⟩ <;> unfold Backend.detect_language <;>
    by_cases h : (arabicCharCount t : ℚ) > (t.length : ℚ) * (3 / 10)
  · rw [if_pos h]
    exact ⟨fun _ => key.mp h, fun _ => rfl⟩
  · rw [if_neg h]
    exact ⟨fun he => absurd he (by decide), fun hc => absurd (key.mpr hc) h⟩
  · rw [if_pos h]
    exact ⟨fun he => absurd he (by decide), fun hc => absurd (key.mp h) hc⟩
  · rw [if_neg h]
    exact ⟨fun _ => fun hc => h (key.mpr hc), fun _ => rfl⟩

/-! The bridge's append-only structure. -/

/-- Concatenation of a list of strings. -/
def concatList : List String → String
  | [] => ""
  | s :: ss => s ++ concatList ss

/-- The suffix `translate_arabic_query` appends to the query: one
space-prefixed English phrase per matching table entry, in table order. -/
def matchedSuffix (q : String) : String :=
  concatList ((Backend.translations.filter (fun e => containsSub e.1 q)).map
    (fun e => " " ++ e.2))

theorem translate_fold_shift (q : String) :
    ∀ (l : List (String × String)) (a b : String),
      l.foldl (fun result e =>
          if containsSub e.1 q then result ++ " " ++ e.2 else result) (a ++ b)
        = a ++ l.foldl (fun result e =>
            if containsSub e.1 q then result ++ " " ++ e.2 else result) b := by
  intro l
  induction l with
  | nil => intro a b; rfl
  | cons e l ih =>
    intro a b
    by_cases h : containsSub e.1 q = true
    · rw [List.foldl_cons, List.foldl_cons, if_pos h, if_pos h,
        String.append_assoc a b " ", String.append_assoc a (b ++ " ") e.2]
      exact ih a ((b ++ " ") ++ e.2)
    · rw [List.foldl_cons, List.foldl_cons, if_neg h, if_neg h]
      exact ih a b

theorem translate_fold_suffix (q : String) :
    ∀ l : List (String × String),
      l.foldl (fun result e =>
          if containsSub e.1 q then result ++ " " ++ e.2 else result) ""
        = concatList ((l.filter (fun e => containsSub e.1 q)).map (fun e => " " ++ e.2)) := by
  intro l
  induction l with
  | nil => rfl
  | cons e l ih =>
    by_cases h : containsSub e.1 q = true
    · rw [List.foldl_cons, if_pos h, List.filter_cons, if_pos h, List.map_cons]
      rw [show ("" : String) ++ " " = " " from rfl]
      have hshift := translate_fold_shift q l (" " ++ e.2) ""
      rw [String.append_empty] at hshift
      rw [hshift, ih]
      rfl
    · rw [List.foldl_cons, if_neg h, List.filter_cons, if_neg h, ih]

theorem translate_eq_fold (q : String) :
    Backend.translate_arabic_query q = Backend.translations.foldl
      (fun result e => if containsSub e.1 q then result ++ " " ++ e.2 else result) q := by
  have hdef : Backend.translate_arabic_query q
      = (if Backend.translations.foldl
            (fun result e => if containsSub e.1 q then result ++ " " ++ e.2 else result) q
          ≠ q
        then Backend.translations.foldl
          (fun result e => if containsSub e.1 q then result ++ " " ++ e.2 else result) q
        else q) := rfl
  rw [hdef]
  by_cases h : Backend.translations.foldl
      (fun result e => if containsSub e.1 q then result ++ " " ++ e.2 else result) q ≠ q
  · rw [if_pos h]
  · rw [if_neg h]
    push_neg at h
    exact h.symm

/-- C2 counterexample: on the query that is exactly the table key the
source spells `'سama'`-mojibake (the `backend.py` literal for ساما), the
output is the original query with `' SAMA'` appended — the original text is
not dropped, so the output is not only the English translations. -/
theorem c2_translate_counterexample :
    Backend.translate_arabic_query "ÿ≥ÿßŸÖÿß" = "ÿ≥ÿßŸÖÿß SAMA"
      ∧ Backend.translate_arabic_query "ÿ≥ÿßŸÖÿß" ≠ "SAMA" := by
  constructor
  · decide
  · decide

/-- C2 (amended): `translate_arabic_query` appends, for each table entry
whose key is a substring of the query, that entry's English phrase to the
query; the output is the original query followed by the space-separated
matched English phrases — the original text is retained, not dropped — and
when no entry matches the query is returned unchanged. -/
theorem c2_translate_appends (q : String) :
    Backend.translate_arabic_query q = q ++ matchedSuffix q
      ∧ ((∀ e ∈ Backend.translations, containsSub e.1 q = false) →
          Backend.translate_arabic_query q = q) := by
  have hmain : Backend.translate_arabic_query q = q ++ matchedSuffix q := by
    have hshift := translate_fold_shift q Backend.translations q ""
    rw [String.append_empty] at hshift
    rw [translate_eq_fold, hshift, translate_fold_suffix]
    rfl
  refine ⟨hmain, fun hnone => ?_⟩
  have hfilter : Backend.translations.filter (fun e => containsSub e.1 q) = [] := by
    apply List.filter_eq_nil_iff.mpr
    intro e he
    simp [hnone e he]
  rw [hmain]
  unfold matchedSuffix
  rw [hfilter]
  exact String.append_empty q

/-- C2 witness: a query matching no table entry is returned unchanged. -/
theorem c2_translate_appends_witness :
    Backend.translate_arabic_query "hello" = "hello" :=
  (c2_translate_appends "hello").2 (by decide)

/-! Invariants of the `bm25_search` collection loop. -/

/-- The property every collected candidate satisfies: effective-language
match, regulator match when filtered, and strictly positive score. -/
def bm25Good (regulator search_lang : String) (r : Candidate) : Prop :=
  r.doc.language? = some search_lang
    ∧ (regulator ≠ "BOTH" → r.doc.regulator? = some regulator)
    ∧ 0 < r.score

theorem bm25Step_inv (documents : List Doc) (scores : List ℚ)
    (regulator search_lang : String) (top_k : ℕ) (acc : List Candidate) (i : ℕ)
    (h1 : acc.length ≤ top_k) (h2 : ∀ r ∈ acc, bm25Good regulator search_lang r) :
    (bm25Step documents scores regulator search_lang top_k acc i).length ≤ top_k
      ∧ ∀ r ∈ bm25Step documents scores regulator search_lang top_k acc i,
          bm25Good regulator search_lang r := by
  simp only [bm25Step]
  split_ifs with hskip hreg hlang hpos
  · exact ⟨h1, h2⟩
  · exact ⟨h1, h2⟩
  · exact ⟨h1, h2⟩
  · constructor
    · simp only [List.length_append, List.length_singleton]
      push_neg at hskip
      omega
    · intro r hr
      rcases List.mem_append.mp hr with hr | hr
      · exact h2 r hr
      · rcases List.mem_singleton.mp hr with h
        subst h
        push_neg at hreg
        refine ⟨not_not.mp hlang, hreg, hpos⟩
  · exact ⟨h1, h2⟩

theorem bm25_fold_inv (documents : List Doc) (scores : List ℚ)
    (regulator search_lang : String) (top_k : ℕ) :
    ∀ (idxs : List ℕ) (acc : List Candidate),
      acc.length ≤ top_k → (∀ r ∈ acc, bm25Good regulator search_lang r) →
      (idxs.foldl (bm25Step documents scores regulator search_lang top_k) acc).length ≤ top_k
        ∧ ∀ r ∈ idxs.foldl (bm25Step documents scores regulator search_lang top_k) acc,
            bm25Good regulator search_lang r := by
  intro idxs
  induction idxs with
  | nil => intro acc h1 h2; exact ⟨h1, h2⟩
  | cons i idxs ih =>
    intro acc h1 h2
    rw [List.foldl_cons]
    have hstep := bm25Step_inv documents scores regulator search_lang top_k acc i h1 h2
    exact ih _ hstep.1 hstep.2

/-- C3: `bm25_search` returns at most `top_k` candidates; every candidate's
document language equals the effective search language, its regulator equals
the filter whenever the filter is not `BOTH`, and its score is strictly
positive; and a query with no tokens yields the empty list, not an error. -/
theorem c3_bm25_search_guarantees (documents : List Doc) (scores : List ℚ)
    (query regulator language : String) (top_k : ℕ) (force_english : Bool) :
    (bm25_search documents scores query regulator language top_k force_english).length ≤ top_k
    ∧ (∀ r ∈ bm25_search documents scores query regulator language top_k force_english,
        r.doc.language? = some (if force_english then "en" else language)
          ∧ (regulator ≠ "BOTH" → r.doc.regulator? = some regulator)
          ∧ 0 < r.score)
    ∧ (tokenize ((pyLowerStr query).data) = [] →
        bm25_search documents scores query regulator language top_k force_english = []) := by
  by_cases ht : tokenize ((pyLowerStr query).data) = []
  · have hnil : bm25_search documents scores query regulator language top_k force_english
        = [] := by
      simp only [bm25_search]
      rw [if_pos ht]
    rw [hnil]
    exact ⟨by simp, by simp, fun _ => rfl⟩
  · have hfold : bm25_search documents scores query regulator language top_k force_english
        = (argsortDesc scores).foldl
            (bm25Step documents scores regulator (if force_english then "en" else language)
              top_k) [] := by
      simp only [bm25_search]
      rw [if_neg ht]
    have hinv := bm25_fold_inv documents scores regulator
      (if force_english then "en" else language) top_k (argsortDesc scores) []
      (by simp) (by simp)
    rw [hfold]
    exact ⟨hinv.1, hinv.2, fun hh => absurd hh ht⟩

/-- C3 witness: a query that tokenizes to nothing returns the empty list. -/
theorem c3_bm25_search_guarantees_witness :
    bm25_search [] [] "///" "BOTH" "en" 15 false = [] :=
  (c3_bm25_search_guarantees [] [] "///" "BOTH" "en" 15 false).2.2 (by decide)

/-! The scope of the loader's CMA/en fallback defaults. -/

/-- A loaded record whose `language` field is absent. -/
def c8DocMissingLang : Doc :=
  ⟨"CMA_Rules.json", "Article 1", some "CMA", none, "licensing fees"⟩

/-- The same record with `language` present. -/
def c8DocWithLang : Doc :=
  ⟨"CMA_Rules.json", "Article 1", some "CMA", some "en", "licensing fees"⟩

/-- C8 counterexample: a record missing its `language` field is not
returned by `bm25_search` searching English (the identical record with
`language` present is), even though the loader's statistics tally counts the
very same record under the CMA/en defaults — the fallback applies only to
the startup statistics, not to retrieval. -/
theorem c8_loader_defaults_counterexample :
    bm25_search [c8DocMissingLang] [5] "licensing" "BOTH" "en" 15 false = []
    ∧ bm25_search [c8DocWithLang] [5] "licensing" "BOTH" "en" 15 false
        = [⟨c8DocWithLang, (5 : ℚ), "bm25"⟩]
    ∧ tallyStats [c8DocMissingLang] = some ⟨0, 0, 1, 0⟩ := by
  refine ⟨by decide, ?_, by decide⟩
  have hstep : bm25Step [c8DocWithLang] [(5 : ℚ)] "BOTH" "en" 15 [] 0
      = [⟨c8DocWithLang, (5 : ℚ), "bm25"⟩] := by
    have hpos : (0 : ℚ) < List.getD [(5 : ℚ)] 0 0 := by
      simp only [List.getD_cons_zero]
      norm_num
    simp only [bm25Step]
    rw [if_neg (by decide), if_neg (by decide), if_neg (by decide), if_pos hpos]
    rfl
  show (if tokenize ((pyLowerStr "licensing").data) = [] then []
      else (argsortDesc [(5 : ℚ)]).foldl (bm25Step [c8DocWithLang] [(5 : ℚ)] "BOTH" "en" 15) [])
    = [⟨c8DocWithLang, (5 : ℚ), "bm25"⟩]
  rw [if_neg (by decide), show argsortDesc [(5 : ℚ)] = [0] from rfl,
    List.foldl_cons, List.foldl_nil]
  exact hstep

theorem tally_fold_defaults :
    ∀ (documents : List Doc) (s : Stats),
      List.foldlM (fun s d => bumpStat s (d.regulator?.getD "CMA") (d.language?.getD "en"))
          s documents
        = List.foldlM (fun s d => bumpStat s (d.regulator?.getD "CMA") (d.language?.getD "en"))
            s (documents.map fillDefaults) := by
  intro documents
  induction documents with
  | nil => intro s; rfl
  | cons d ds ih =>
    intro s
    rw [List.map_cons, List.foldlM_cons, List.foldlM_cons]
    have harg : bumpStat s ((fillDefaults d).regulator?.getD "CMA")
        ((fillDefaults d).language?.getD "en")
        = bumpStat s (d.regulator?.getD "CMA") (d.language?.getD "en") := by
      simp [fillDefaults]
    rw [harg]
    cases hb : bumpStat s (d.regulator?.getD "CMA") (d.language?.getD "en") with
    | none => rfl
    | some s' =>
      simp only [Option.bind_eq_bind, Option.some_bind]
      exact ih s'

/-- C8 (amended): the CMA/en fallbacks apply only to the startup statistics
tally — tallying the records is the same as tallying them with the defaults
filled in — while retrieval never treats a record missing `language` as
English: every candidate `bm25_search` returns carries a present `language`
field (equal to the effective search language). -/
theorem c8_defaults_scope_amended (documents : List Doc) (scores : List ℚ)
    (query regulator language : String) (top_k : ℕ) (force_english : Bool) :
    (∀ r ∈ bm25_search documents scores query regulator language top_k force_english,
        r.doc.language? = some (if force_english then "en" else language))
    ∧ tallyStats documents = tallyStats (documents.map fillDefaults) := by
  constructor
  · intro r hr
    by_cases ht : tokenize ((pyLowerStr query).data) = []
    · have hnil : bm25_search documents scores query regulator language top_k force_english
          = [] := by
        simp only [bm25_search]
        rw [if_pos ht]
      rw [hnil] at hr
      exact absurd hr (List.not_mem_nil r)
    · have hfold : bm25_search documents scores query regulator language top_k force_english
          = (argsortDesc scores).foldl
              (bm25Step documents scores regulator (if force_english then "en" else language)
                top_k) [] := by
        simp only [bm25_search]
        rw [if_neg ht]
      rw [hfold] at hr
      exact ((bm25_fold_inv documents scores regulator
        (if force_english then "en" else language) top_k (argsortDesc scores) []
        (by simp) (by simp)).2 r hr).1
  · exact tally_fold_defaults documents ⟨0, 0, 0, 0⟩

/-- C8 witness: the statistics tally of the record missing `language` equals
the tally of its default-filled version. -/
theorem c8_defaults_scope_amended_witness :
    tallyStats [c8DocMissingLang] = tallyStats ([c8DocMissingLang].map fillDefaults) :=
  (c8_defaults_scope_amended [c8DocMissingLang] [] "" "BOTH" "en" 0 false).2

/-! The out-of-domain guard path and the sources deduplication of
`generate_response`. -/

/-- C4: when the query matches an off-topic term, `generate_response`
returns the canned refusal selected by the detected language, an empty
sources list and the sentinel regulator `'NONE'`, and the retrieval
pipeline is invoked zero times. -/
theorem c4_out_of_domain_guard (retrieve : String → List Doc × String × String)
    (llm : String → String)
    (bp : String → List Doc → String → Bool → Option (List ChatMsg) → String)
    (histCtx : List ChatMsg) (question : String)
    (h : Backend.is_out_of_domain question = true) :
    generate_response retrieve llm bp histCtx question
      = (⟨Backend.build_out_of_domain_response (Backend.detect_language question),
          [], "NONE"⟩, 0) := by
  simp only [generate_response]
  rw [if_pos h]

/-- C4 witness: the guard fires on a weather query with zero retrieval
invocations. -/
theorem c4_out_of_domain_guard_witness :
    generate_response (fun _ => ([], "BOTH", "en")) (fun _ => "")
        (fun _ _ _ _ _ => "") [] "weather today"
      = (⟨Backend.build_out_of_domain_response (Backend.detect_language "weather today"),
          [], "NONE"⟩, 0) :=
  c4_out_of_domain_guard _ _ _ _ _ (by decide)

theorem dedupSourcesAux_articles :
    ∀ (docs : List Doc) (seen : List String),
      (dedupSourcesAux docs seen).map (fun s => s.article)
        = newKeysStr (docs.map (fun d => d.article)) seen := by
  intro docs
  induction docs with
  | nil => intro seen; rfl
  | cons d ds ih =>
    intro seen
    rw [List.map_cons]
    by_cases h : d.article ∈ seen
    · rw [show dedupSourcesAux (d :: ds) seen = dedupSourcesAux ds seen from by
        rw [dedupSourcesAux]; rw [if_pos h]]
      rw [newKeysStr_cons, if_pos h]
      exact ih seen
    · rw [show dedupSourcesAux (d :: ds) seen
          = ⟨d.article, d.document⟩ :: dedupSourcesAux ds (seen ++ [d.article]) from by
        rw [dedupSourcesAux]; rw [if_neg h]]
      rw [newKeysStr_cons, if_neg h, List.map_cons]
      rw [ih (seen ++ [d.article])]

theorem newKeysStr_nodup : ∀ (ks seen : List String), (newKeysStr ks seen).Nodup := by
  intro ks
  induction ks with
  | nil => intro seen; exact List.nodup_nil
  | cons k ks ih =>
    intro seen
    rw [newKeysStr_cons]
    by_cases h : k ∈ seen
    · rw [if_pos h]
      exact ih seen
    · rw [if_neg h]
      refine List.Nodup.cons ?_ (ih (seen ++ [k]))
      intro hk
      exact (newKeysStr_not_mem _ _ hk) (List.mem_append_right _ (List.mem_singleton.mpr rfl))

/-- C10: whenever the guard does not fire and retrieval returns a non-empty
document list, the sources list `generate_response` returns is the
deduplication of the retrieved documents keyed on the `article` field alone:
its articles are exactly the first occurrences of the retrieved articles (so
a later document sharing an already seen article string is omitted even when
its `document` field differs), and each article appears at most once. -/
theorem c10_sources_dedup (retrieve : String → List Doc × String × String)
    (llm : String → String)
    (bp : String → List Doc → String → Bool → Option (List ChatMsg) → String)
    (histCtx : List ChatMsg) (question : String)
    (hguard : Backend.is_out_of_domain question = false)
    (hdocs : (retrieve question).1 ≠ []) :
    (generate_response retrieve llm bp histCtx question).1.sources
        = dedupSources (retrieve question).1
    ∧ ((generate_response retrieve llm bp histCtx question).1.sources.map
        (fun s => s.article))
        = firstKeys ((retrieve question).1.map (fun d => d.article))
    ∧ ((generate_response retrieve llm bp histCtx question).1.sources.map
        (fun s => s.article)).Nodup := by
  have hsrc : (generate_response retrieve llm bp histCtx question).1.sources
      = dedupSources (retrieve question).1 := by
    simp only [generate_response]
    rw [if_neg (by rw [hguard]; exact Bool.false_ne_true), if_neg hdocs]
  have harts : (dedupSources (retrieve question).1).map (fun s => s.article)
      = firstKeys ((retrieve question).1.map (fun d => d.article)) := by
    unfold dedupSources firstKeys
    rw [dedupSourcesAux_articles, addSrcs_eq_append]
    rfl
  refine ⟨hsrc, ?_, ?_⟩
  · rw [hsrc]
    exact harts
  · rw [hsrc]
    unfold dedupSources
    rw [dedupSourcesAux_articles]
    exact newKeysStr_nodup _ _

/-- Concrete retrieval outcome for the C10 witness: the third document
repeats the first document's article under a different source file. -/
def c10Docs : List Doc :=
  [⟨"F1", "Article 1", some "CMA", some "en", "t1"⟩,
   ⟨"F2", "Article 2", some "CMA", some "en", "t2"⟩,
   ⟨"F3", "Article 1", some "CMA", some "en", "t3"⟩]

/-- C10 witness: the duplicated article is emitted once, keyed on the
article alone. -/
theorem c10_sources_dedup_witness :
    (generate_response (fun _ => (c10Docs, "CMA", "en")) (fun _ => "answer")
        (fun _ _ _ _ _ => "") [] "zakat rules").1.sources
      = [⟨"Article 1", "F1"⟩, ⟨"Article 2", "F2"⟩] :=
  ((c10_sources_dedup (fun _ => (c10Docs, "CMA", "en")) (fun _ => "answer")
      (fun _ _ _ _ _ => "") [] "zakat rules" (by decide) (by decide)).1).trans
    (by decide)

/-! The semantic retriever's distance-to-score conversion. -/

/-- The property C6 asserts of each semantic candidate. -/
def semGood (dists : List ℚ) (r : Candidate) : Prop :=
  (∃ d ∈ dists, r.score = 1 / (1 + d)) ∧ 0 < r.score ∧ r.score ≤ 1

theorem semScore_bounds {d : ℚ} (hd : 0 ≤ d) : 0 < 1 / (1 + d) ∧ 1 / (1 + d) ≤ 1 := by
  have h1 : (0 : ℚ) < 1 + d := by linarith
  constructor
  · exact div_pos one_pos h1
  · rw [div_le_one h1]
    linarith

theorem sem_fold_inv (dists : List ℚ) (hd : ∀ d ∈ dists, 0 ≤ d)
    (regulator search_lang : String) :
    ∀ (l : List (String × Meta × ℚ)) (acc : List Candidate),
      (∀ x ∈ l, x.2.2 ∈ dists) → (∀ r ∈ acc, semGood dists r) →
      ∀ r ∈ l.foldl (semStep regulator search_lang) acc, semGood dists r := by
  intro l
  induction l with
  | nil => intro acc _ hacc; exact hacc
  | cons x l ih =>
    intro acc hl hacc
    rw [List.foldl_cons]
    refine ih _ (fun y hy => hl y (List.mem_cons_of_mem x hy)) ?_
    intro r hr
    simp only [semStep] at hr
    split_ifs at hr
    · exact hacc r hr
    · exact hacc r hr
    · rcases List.mem_append.mp hr with hr | hr
      · exact hacc r hr
      · rcases List.mem_singleton.mp hr with h
        subst h
        have hdist : x.2.2 ∈ dists := hl x (List.mem_cons_self x l)
        have hb := semScore_bounds (hd x.2.2 hdist)
        exact ⟨⟨x.2.2, hdist, rfl⟩, hb.1, hb.2⟩

/-- C6: every candidate `semantic_search` returns carries the score
`1/(1+d)` computed from one of the returned neighbor distances `d`, and —
the vector index returning non-negative distances — that score lies in the
half-open interval `(0, 1]`. -/
theorem c6_semantic_score (qdocs : List String) (metas : List Meta) (dists : List ℚ)
    (regulator language : String) (top_k : ℕ) (force_english : Bool)
    (hd : ∀ d ∈ dists, 0 ≤ d) :
    ∀ r ∈ semantic_search qdocs metas dists regulator language top_k force_english,
      (∃ d ∈ dists, r.score = 1 / (1 + d)) ∧ 0 < r.score ∧ r.score ≤ 1 := by
  intro r hr
  have hr' : r ∈ (qdocs.zip (metas.zip dists)).foldl
      (semStep regulator (if force_english then "en" else language)) [] := by
    have hs : semantic_search qdocs metas dists regulator language top_k force_english
        = ((qdocs.zip (metas.zip dists)).foldl
            (semStep regulator (if force_english then "en" else language)) []).take top_k :=
      rfl
    rw [hs] at hr
    exact List.take_subset top_k _ hr
  have hmem : ∀ x ∈ qdocs.zip (metas.zip dists), x.2.2 ∈ dists := by
    intro x hx
    rcases x with ⟨a, m, d⟩
    exact (List.of_mem_zip (List.of_mem_zip hx).2).2
  exact sem_fold_inv dists hd regulator (if force_english then "en" else language)
    _ [] hmem (by simp) r hr'

/-- Concrete neighbor metadata for the C6 witness. -/
def c6Meta : Meta := ⟨some "D", some "A1", some "CMA", some "en"⟩

/-- The candidate `semantic_search` builds from that neighbor at distance 3. -/
def c6Result : Candidate :=
  ⟨⟨"D", "A1", some "CMA", some "en", "t"⟩, 1 / (1 + (3 : ℚ)), "semantic"⟩

/-- C6 witness: the candidate built from distance 3 has a score in `(0, 1]`. -/
theorem c6_semantic_score_witness : 0 < c6Result.score ∧ c6Result.score ≤ 1 :=
  (c6_semantic_score ["t"] [c6Meta] [3] "BOTH" "en" 15 false
    (by intro d hd; rcases List.mem_singleton.mp hd with h; subst h; norm_num)
    c6Result
    (by rw [show semantic_search ["t"] [c6Meta] [3] "BOTH" "en" 15 false = [c6Result]
          from rfl]
        exact List.mem_singleton.mpr rfl)).2

/-! Agreement of the two embedded revisions. -/

/-- All Arabic-script phrase literals either revision matches against the
raw query: the regulator keyword tables, the translation-table keys and the
follow-up patterns of both files. -/
def rawPhrasePatterns : List String :=
  Backend.samaAr ++ Backend.cmaAr ++ Backend.translations.map (fun e => e.1)
    ++ Backend.followUpAr ++ MainPy.samaAr ++ MainPy.cmaAr
    ++ MainPy.translations.map (fun e => e.1) ++ MainPy.followUpAr

/-- The Arabic-script off-topic terms of both files, matched against the
lowercased query. -/
def lowerPhrasePatterns : List String := Backend.outOfDomainAr ++ MainPy.outOfDomainAr

/-- A query containing no Arabic-script phrase literal of either revision. -/
def noArabicHits (q : String) : Prop :=
  (∀ p ∈ rawPhrasePatterns, containsSub p q = false)
    ∧ (∀ p ∈ lowerPhrasePatterns, containsSub p (pyLowerStr q) = false)

theorem any_false_of_all {L : List String} {f : String → Bool}
    (h : ∀ p ∈ L, f p = false) : L.any f = false := by
  rw [List.any_eq_false]
  intro x hx
  rw [h x hx]
  exact Bool.false_ne_true

theorem translate_fold_no_match (q : String) (l : List (String × String))
    (h : ∀ e ∈ l, containsSub e.1 q = false) :
    ∀ init : String,
      l.foldl (fun result e =>
        if containsSub e.1 q then result ++ " " ++ e.2 else result) init = init := by
  induction l with
  | nil => intro init; rfl
  | cons e l ih =>
    intro init
    rw [List.foldl_cons, if_neg (by rw [h e (List.mem_cons_self e l)]; exact Bool.false_ne_true)]
    exact ih (fun x hx => h x (List.mem_cons_of_mem e hx)) init

theorem translate_eq_fold_main (q : String) :
    MainPy.translate_arabic_query q = MainPy.translations.foldl
      (fun result e => if containsSub e.1 q then result ++ " " ++ e.2 else result) q := by
  have hdef : MainPy.translate_arabic_query q
      = (if MainPy.translations.foldl
            (fun result e => if containsSub e.1 q then result ++ " " ++ e.2 else result) q
          ≠ q
        then MainPy.translations.foldl
          (fun result e => if containsSub e.1 q then result ++ " " ++ e.2 else result) q
        else q) := rfl
  rw [hdef]
  by_cases h : MainPy.translations.foldl
      (fun result e => if containsSub e.1 q then result ++ " " ++ e.2 else result) q ≠ q
  · rw [if_pos h]
  · rw [if_neg h]
    push_neg at h
    exact h.symm

/-- C9 counterexample: on the genuine Arabic query ساما the two revisions
disagree — `main.py`'s bridge appends `' SAMA'` while `backend.py`'s bridge,
whose table keys are mojibake-encoded, matches nothing and returns the query
unchanged. -/
theorem c9_revisions_counterexample :
    Backend.translate_arabic_query "ساما" ≠ MainPy.translate_arabic_query "ساما" := by
  decide

set_option maxRecDepth 100000 in
/-- The embedded lowercasing reproduces the revisions' divergence on cased
mojibake: on the query ŸµŸ≠Ÿ© — the `backend.py` off-topic literal ÿµÿ≠ÿ©
(mojibake of صحة) with each ÿ replaced by its uppercase Ÿ — `str.lower()`
maps Ÿ (U+0178) back to ÿ (U+00FF), so `backend.py` refuses the query while
`main.py` does not; such queries are excluded from the agreement theorem
below because their lowercased form contains a `backend.py` off-topic
literal. -/
theorem is_out_of_domain_mojibake_case_divergence :
    Backend.is_out_of_domain "ŸµŸ≠Ÿ©" = true
      ∧ MainPy.is_out_of_domain "ŸµŸ≠Ÿ©" = false
      ∧ containsSub "ÿµÿ≠ÿ©" (pyLowerStr "ŸµŸ≠Ÿ©") = true := by
  refine ⟨by decide, by decide, by decide⟩

/-- C9 (amended): `detect_language` and `expand_query` agree on every input,
and `detect_regulator`, `translate_arabic_query`, `is_follow_up` and
`is_out_of_domain` agree on every query that contains no Arabic-script
phrase literal of either revision; the revisions are not equivalent in
general, because `backend.py`'s Arabic literals are mojibake re-encodings of
`main.py`'s, so queries containing either spelling can be classified
differently. -/
theorem c9_revisions_agree :
    (∀ t, Backend.detect_language t = MainPy.detect_language t)
    ∧ (∀ q l, Backend.expand_query q l = MainPy.expand_query q l)
    ∧ (∀ q, noArabicHits q →
        Backend.detect_regulator q = MainPy.detect_regulator q
        ∧ Backend.translate_arabic_query q = MainPy.translate_arabic_query q
        ∧ Backend.is_follow_up q = MainPy.is_follow_up q
        ∧ Backend.is_out_of_domain q = MainPy.is_out_of_domain q) := by
  refine ⟨fun t => rfl, fun q l => rfl, ?_⟩
  intro q hq
  obtain ⟨hraw, hlow⟩ := hq
  have hBs : Backend.samaAr.any (fun kw => containsSub kw q) = false :=
    any_false_of_all (fun p hp => hraw p (by
      unfold rawPhrasePatterns
      simp only [List.mem_append]
      tauto))
  have hBc : Backend.cmaAr.any (fun kw => containsSub kw q) = false :=
    any_false_of_all (fun p hp => hraw p (by
      unfold rawPhrasePatterns
      simp only [List.mem_append]
      tauto))
  have hMs : MainPy.samaAr.any (fun kw => containsSub kw q) = false :=
    any_false_of_all (fun p hp => hraw p (by
      unfold rawPhrasePatterns
      simp only [List.mem_append]
      tauto))
  have hMc : MainPy.cmaAr.any (fun kw => containsSub kw q) = false :=
    any_false_of_all (fun p hp => hraw p (by
      unfold rawPhrasePatterns
      simp only [List.mem_append]
      tauto))
  have hBt : ∀ e ∈ Backend.translations, containsSub e.1 q = false := by
    intro e he
    refine hraw e.1 ?_
    unfold rawPhrasePatterns
    simp only [List.mem_append]
    have : e.1 ∈ Backend.translations.map (fun e => e.1) := List.mem_map.mpr ⟨e, he, rfl⟩
    tauto
  have hMt : ∀ e ∈ MainPy.translations, containsSub e.1 q = false := by
    intro e he
    refine hraw e.1 ?_
    unfold rawPhrasePatterns
    simp only [List.mem_append]
    have : e.1 ∈ MainPy.translations.map (fun e => e.1) := List.mem_map.mpr ⟨e, he, rfl⟩
    tauto
  have hBf : Backend.followUpAr.any (fun p => containsSub p q) = false :=
    any_false_of_all (fun p hp => hraw p (by
      unfold rawPhrasePatterns
      simp only [List.mem_append]
      tauto))
  have hMf : MainPy.followUpAr.any (fun p => containsSub p q) = false :=
    any_false_of_all (fun p hp => hraw p (by
      unfold rawPhrasePatterns
      simp only [List.mem_append]
      tauto))
  have hBo : Backend.outOfDomainAr.any (fun term => containsSub term (pyLowerStr q)) = false :=
    any_false_of_all (fun p hp => hlow p (by
      unfold lowerPhrasePatterns
      simp only [List.mem_append]
      tauto))
  have hMo : MainPy.outOfDomainAr.any (fun term => containsSub term (pyLowerStr q)) = false :=
    any_false_of_all (fun p hp => hlow p (by
      unfold lowerPhrasePatterns
      simp only [List.mem_append]
      tauto))
  refine ⟨?_, ?_, ?_, ?_⟩
  · simp only [Backend.detect_regulator, MainPy.detect_regulator]
    rw [hBs, hBc, hMs, hMc,
      show Backend.samaEn = MainPy.samaEn from rfl,
      show Backend.cmaEn = MainPy.cmaEn from rfl]
  · rw [translate_eq_fold, translate_eq_fold_main,
      translate_fold_no_match q Backend.translations hBt q,
      translate_fold_no_match q MainPy.translations hMt q]
  · simp only [Backend.is_follow_up, MainPy.is_follow_up]
    rw [hBf, hMf, show Backend.followUpEn = MainPy.followUpEn from rfl]
  · simp only [Backend.is_out_of_domain, MainPy.is_out_of_domain]
    rw [List.any_append, List.any_append, hBo, hMo,
      show Backend.outOfDomainEn = MainPy.outOfDomainEn from rfl]

set_option maxRecDepth 8000 in
/-- C9 witness: the two revisions agree on an English query with no Arabic
phrase literal in it. -/
theorem c9_revisions_agree_witness :
    Backend.detect_regulator "hello" = MainPy.detect_regulator "hello"
    ∧ Backend.translate_arabic_query "hello" = MainPy.translate_arabic_query "hello"
    ∧ Backend.is_follow_up "hello" = MainPy.is_follow_up "hello"
    ∧ Backend.is_out_of_domain "hello" = MainPy.is_out_of_domain "hello" :=
  c9_revisions_agree.2.2 "hello" ⟨by decide, by decide⟩

/-! Concrete instances for the remaining witnesses. -/

def c1DocA : Doc := ⟨"F1", "Article 1", some "CMA", some "en", "t1"⟩

def c1DocB : Doc := ⟨"F2", "Article 2", some "CMA", some "en", "t2"⟩

def c1Lex : List Candidate := [⟨c1DocA, 5, "bm25"⟩]

def c1Sem : List Candidate := [⟨c1DocB, 1 / 2, "semantic"⟩]

def c1EntryA : FuseEntry := ⟨docKey c1DocA, c1DocA, 0 + rrfTerm 0, ["BM25"]⟩

def c1EntryB : FuseEntry := ⟨docKey c1DocB, c1DocB, 0 + rrfTerm 0, ["Semantic"]⟩

/-- C1 witness: two entries tied at rank 0 of each list keep their insertion
order through the ranking sort. -/
theorem c1_hybrid_fusion_rrf_witness :
    [c1EntryA, c1EntryB].Sublist (fusedRanking c1Lex c1Sem) :=
  (c1_hybrid_fusion_rrf c1Lex c1Sem 3).2.2.1 c1EntryA c1EntryB
    (by rw [show fuseEntries c1Lex c1Sem = [c1EntryA, c1EntryB] from rfl])
    (le_of_eq rfl)

/-- C5 witness: the empty string is classified as English. -/
theorem c5_detect_language_threshold_witness : Backend.detect_language "" = "en" :=
  (c5_detect_language_threshold "").2.2

/-- C7 witness: the fused score of ranks 0 and 1 exceeds the rank-0
contribution alone. -/
theorem c7_rrf_fused_score_monotonicity_witness :
    rrfTerm 0 < rrfTerm 0 + rrfTerm 1 :=
  (c7_rrf_fused_score_monotonicity 0 1).1

end TadqeeqAI
